import Mathlib

/-!
# Formal model of the evmix core (packages/evmix-core)

A shallow embedding of the evmix EVM interpreter in Lean 4:
`Word256`, the machine state, the trace pipeline, the opcode handlers and
the fetch/dispatch loop are translated from the TypeScript sources, and the
testable properties of the specification are settled against this model.

Conventions used throughout:
* TypeScript `bigint` values are modelled as `Nat` (all the values involved
  are non-negative) or as `Int` where an intermediate value can be negative
  (`Word256.sub`); `bigint & MAX_UINT256` on a negative two's-complement
  value equals the mathematical remainder, hence `Int.emod`.
* JS exceptions are modelled with `Except`; the error value carries the
  state at the moment of the throw, because a JS exception leaves all
  mutations made before the throw in place.
* Byte arrays (`Uint8Array`) are `List Nat` with every entry < 256.

The file is laid out with all definitions first and all theorems after.
-/

namespace Evmix

/-! ## Base-b digit rendering and parsing

`Number.prototype.toString(b)` / `BigInt.prototype.toString(b)` render a
non-negative integer in base `b` big-endian with no leading zeros ("0" for
zero).  `toDigitsBE` is that digit list, computed with an explicit fuel so
that the recursion is structural (the fuel `n` itself is always enough,
since a number has at most `n` digits). -/

/-- Big-endian base-`b` digits of `n`, empty for `n = 0`; `fuel` bounds the
recursion depth and is sufficient whenever `n < b ^ fuel`. -/
def toDigitsBE (b : Nat) (fuel n : Nat) : List Nat :=
  match fuel with
  | 0 => []
  | f + 1 => if n = 0 then [] else toDigitsBE b f (n / b) ++ [n % b]

/-- Fold a big-endian digit list back into a number, the way
`BigInt("0x" + s)` or a decimal parse does. -/
def ofDigitsBE (b : Nat) (ds : List Nat) : Nat :=
  ds.foldl (fun a d => b * a + d) 0

/-- The hex digit characters produced by JS `toString(16)` (lowercase). -/
def hexDigitChar (d : Nat) : Char :=
  if d < 10 then Char.ofNat (48 + d) else Char.ofNat (87 + d)

/-- Numeric value of a hex character; `0` for non-hex characters (call
sites validate with `isHexChar` first, mirroring the source regex). -/
def hexCharVal (c : Char) : Nat :=
  if 48 ≤ c.toNat ∧ c.toNat ≤ 57 then c.toNat - 48
  else if 97 ≤ c.toNat ∧ c.toNat ≤ 102 then c.toNat - 87
  else if 65 ≤ c.toNat ∧ c.toNat ≤ 70 then c.toNat - 55
  else 0

/-- The character class of the validation regex in `Word256.fromHex`. -/
def isHexChar (c : Char) : Bool :=
  (48 ≤ c.toNat && c.toNat ≤ 57) || (97 ≤ c.toNat && c.toNat ≤ 102) ||
    (65 ≤ c.toNat && c.toNat ≤ 70)

/-- The decimal digit characters produced by JS `toString()`. -/
def decDigitChar (d : Nat) : Char := Char.ofNat (48 + d)

/-- Numeric value of a decimal character, `0` elsewhere. -/
def decCharVal (c : Char) : Nat :=
  if 48 ≤ c.toNat ∧ c.toNat ≤ 57 then c.toNat - 48 else 0

/-- `n.toString()` for a non-negative bigint: minimal decimal digits,
`"0"` for zero. -/
def decString (n : Nat) : String :=
  if n = 0 then "0" else ⟨(toDigitsBE 10 n n).map decDigitChar⟩

/-- Parse a decimal string (used to read back the stringified `amount`
field of a `gas.charge` event). -/
def decParse (s : String) : Nat :=
  s.data.foldl (fun a c => 10 * a + decCharVal c) 0

/-- The `hex.startsWith("0x") ? hex.slice(2) : hex` step shared by
`Word256.fromHex` and `Address.fromHex`. -/
def stripHexPrefix (l : List Char) : List Char :=
  match l with
  | '0' :: 'x' :: rest => rest
  | l => l

/-! ## Word256 (src/types/Word256.ts) -/

def MAX_UINT256 : Nat := 2 ^ 256 - 1

/-- A 256-bit unsigned word.  The TypeScript constructor is private and
masks with `MAX_UINT256`, so every reachable instance satisfies the bound,
which is carried here as a proof field. -/
structure Word256 where
  value : Nat
  isLt : value < 2 ^ 256
deriving DecidableEq

namespace Word256

/-- `new Word256(v)` for a non-negative bigint: mask to 256 bits. -/
def ofNat (n : Nat) : Word256 :=
  ⟨n % 2 ^ 256, Nat.mod_lt _ (by positivity)⟩

/-- `new Word256(v)` for a possibly negative bigint: `v & MAX_UINT256` on
a two's-complement bigint is the non-negative remainder mod `2^256`. -/
def ofInt (v : Int) : Word256 :=
  ofNat (v.emod (2 ^ 256)).toNat

def zero : Word256 := ofNat 0
def one : Word256 := ofNat 1
def max : Word256 := ofNat MAX_UINT256

def add (a b : Word256) : Word256 := ofNat (a.value + b.value)
def sub (a b : Word256) : Word256 := ofInt ((a.value : Int) - (b.value : Int))
def mul (a b : Word256) : Word256 := ofNat (a.value * b.value)

def div (a b : Word256) : Word256 :=
  if b.value = 0 then zero else ofNat (a.value / b.value)

def mod (a b : Word256) : Word256 :=
  if b.value = 0 then zero else ofNat (a.value % b.value)

def shl (a shift : Word256) : Word256 :=
  if 256 ≤ shift.value then zero else ofNat (a.value <<< shift.value)

def shr (a shift : Word256) : Word256 :=
  if 256 ≤ shift.value then zero else ofNat (a.value >>> shift.value)

def isZero (a : Word256) : Bool := a.value = 0

/-- `toHex`: `value.toString(16).padStart(64, "0")`. -/
def toHex (w : Word256) : String :=
  let raw := (toDigitsBE 16 w.value w.value).map hexDigitChar
  if 64 ≤ raw.length then ⟨raw⟩ else ⟨List.replicate (64 - raw.length) '0' ++ raw⟩

def toHexWith0x (w : Word256) : String := "0x" ++ w.toHex

/-- `toBytes`: the loop fills index 31 down to 0 with `val & 0xff`,
shifting right by 8 each time, so byte `i` is `value / 256^(31-i) % 256`. -/
def toBytes (w : Word256) : List Nat :=
  (List.range 32).map fun i => w.value / 256 ^ (31 - i) % 256

/-- `fromBytes`: big-endian fold, then the masking constructor. -/
def fromBytes (bytes : List Nat) : Except String Word256 :=
  if 32 < bytes.length then .error "Byte array too long"
  else .ok (ofNat (bytes.foldl (fun a b => a * 256 + b) 0))

/-- `fromHex`: strip an optional `0x` (`startsWith` check), validate with
the hex regex, then parse (`BigInt("0x" + s)`) and mask. -/
def fromHex (hex : String) : Except String Word256 :=
  if (stripHexPrefix hex.data).all isHexChar then
    .ok (ofNat ((stripHexPrefix hex.data).foldl (fun a c => 16 * a + hexCharVal c) 0))
  else .error "Invalid hex string"

end Word256

/-- Hex rendering of one byte: `b.toString(16).padStart(2, "0")`. -/
def byteHex (b : Nat) : List Char :=
  let raw := (toDigitsBE 16 b b).map hexDigitChar
  if 2 ≤ raw.length then raw else List.replicate (2 - raw.length) '0' ++ raw

/-- Hex rendering of a byte array with `0x` prefix, as in
`TraceEventBuilder.memoryWrite`. -/
def bytesToHex (data : List Nat) : String :=
  "0x" ++ ⟨(data.map byteHex).flatten⟩

/-! ## Address (src/types/Address.ts) -/

/-- A 160-bit address; the private constructor masks to 160 bits. -/
structure Address where
  value : Nat
  isLt : value < 2 ^ 160
deriving DecidableEq

namespace Address

def ofNat (n : Nat) : Address :=
  ⟨n % 2 ^ 160, Nat.mod_lt _ (by positivity)⟩

def zero : Address := ofNat 0

/-- `toHex`: `value.toString(16).padStart(40, "0")`. -/
def toHex (a : Address) : String :=
  let raw := (toDigitsBE 16 a.value a.value).map hexDigitChar
  if 40 ≤ raw.length then ⟨raw⟩ else ⟨List.replicate (40 - raw.length) '0' ++ raw⟩

def toHexWith0x (a : Address) : String := "0x" ++ a.toHex

end Address

/-! ## HaltReason (src/state/HaltReason.ts) -/

inductive HaltReason
  | STOP
  | RETURN
  | REVERT
  | OUT_OF_GAS
  | INVALID_OPCODE
  | STACK_UNDERFLOW
  | STACK_OVERFLOW
  | INVALID_JUMP
  | INVALID_INSTRUCTION
deriving DecidableEq

/-- The string value of the `HaltReason` enum member (the enum is
string-valued in the source). -/
def HaltReason.enumString : HaltReason → String
  | .STOP => "STOP"
  | .RETURN => "RETURN"
  | .REVERT => "REVERT"
  | .OUT_OF_GAS => "OUT_OF_GAS"
  | .INVALID_OPCODE => "INVALID_OPCODE"
  | .STACK_UNDERFLOW => "STACK_UNDERFLOW"
  | .STACK_OVERFLOW => "STACK_OVERFLOW"
  | .INVALID_JUMP => "INVALID_JUMP"
  | .INVALID_INSTRUCTION => "INVALID_INSTRUCTION"

/-! ## Errors

JS exceptions thrown inside handlers.  `Interpreter.step` catches
`StackError` (choosing the halt reason by whether the message contains
"overflow") and the `Error("Out of gas")` from `chargeGas`; anything else
is rethrown to the caller. -/

inductive VmError
  /-- A `StackError` whose message does not contain "overflow"
  (underflow, invalid depth, index out of bounds). -/
  | stackUnderflow
  /-- A `StackError` whose message contains "overflow". -/
  | stackOverflow
  /-- The `Error("Out of gas")` thrown by `MachineState.chargeGas`. -/
  | outOfGas
  /-- A `TypeError` from calling a property that is `undefined`
  (`TraceEventBuilder.log` does not exist in the trace event module). -/
  | typeError
deriving DecidableEq

/-! ## Trace events (src/trace/TraceEvent.ts)

Event payloads are stored exactly as the builders store them: `index`,
`pc` and `gasRemaining` numeric, and `value` / `data` / `address` / `key` /
`amount` already rendered to strings by the builder. -/

inductive TraceEvent
  | opcodeStart (index pc gasRemaining : Nat) (opcode : Nat) (opcodeName : String)
  | stackPush (index pc gasRemaining : Nat) (value : String)
  | stackPop (index pc gasRemaining : Nat) (value : String)
  | memoryWrite (index pc gasRemaining : Nat) (offset : Nat) (data : String)
  | memoryRead (index pc gasRemaining : Nat) (offset length : Nat)
  | storageRead (index pc gasRemaining : Nat) (address key value : String)
  | storageWrite (index pc gasRemaining : Nat) (address key value : String)
  | gasCharge (index pc gasRemaining : Nat) (amount : String) (reason : String)
  /-- `jsrc`/`jdst` are the `from`/`to` fields (keywords in Lean). -/
  | jump (index pc gasRemaining : Nat) (jsrc jdst : Nat) (conditional taken : Bool)
  | halt (index pc gasRemaining : Nat) (reason : HaltReason)
deriving DecidableEq

namespace TraceEventBuilder

def opcodeStart (index pc gas : Nat) (opcode : Nat) (name : String) : TraceEvent :=
  .opcodeStart index pc gas opcode name

def stackPush (index pc gas : Nat) (value : Word256) : TraceEvent :=
  .stackPush index pc gas value.toHexWith0x

def stackPop (index pc gas : Nat) (value : Word256) : TraceEvent :=
  .stackPop index pc gas value.toHexWith0x

def memoryWrite (index pc gas : Nat) (offset : Nat) (data : List Nat) : TraceEvent :=
  .memoryWrite index pc gas offset (bytesToHex data)

def memoryRead (index pc gas : Nat) (offset length : Nat) : TraceEvent :=
  .memoryRead index pc gas offset length

def storageRead (index pc gas : Nat) (address : Address) (key value : Word256) : TraceEvent :=
  .storageRead index pc gas address.toHexWith0x key.toHexWith0x value.toHexWith0x

def storageWrite (index pc gas : Nat) (address : Address) (key value : Word256) : TraceEvent :=
  .storageWrite index pc gas address.toHexWith0x key.toHexWith0x value.toHexWith0x

def gasCharge (index pc gas : Nat) (amount : Nat) (reason : String) : TraceEvent :=
  .gasCharge index pc gas (decString amount) reason

def jump (index pc gas : Nat) (jsrc jdst : Nat) (conditional taken : Bool) : TraceEvent :=
  .jump index pc gas jsrc jdst conditional taken

def halt (index pc gas : Nat) (reason : HaltReason) : TraceEvent :=
  .halt index pc gas reason

end TraceEventBuilder

/-! ## Trace collector (src/trace/TraceCollector.ts) -/

structure TraceCollector where
  events : List TraceEvent
  nextIndex : Nat
deriving DecidableEq

namespace TraceCollector

def empty : TraceCollector := ⟨[], 0⟩

def record (c : TraceCollector) (e : TraceEvent) : TraceCollector :=
  { c with events := c.events ++ [e] }

/-- `getNextIndex()` returns the counter and post-increments. -/
def getNextIndex (c : TraceCollector) : Nat × TraceCollector :=
  (c.nextIndex, { c with nextIndex := c.nextIndex + 1 })

def getEventCount (c : TraceCollector) : Nat := c.events.length

def clone (c : TraceCollector) : TraceCollector := c

end TraceCollector

/-! ## JSON round-trip model (TraceCollector.toJSON / fromJSON)

At run time a trace event is a plain JS object whose field values are
numbers, bigints, strings or booleans.  `toJSON` is
`JSON.stringify(events, replacer)` where the replacer renders every bigint
as its decimal string; `fromJSON` is `JSON.parse` followed by
`events := parsed; nextIndex := parsed.length`.  `JSON.parse` inverts the
textual rendering of `JSON.stringify` on these values, so the composite
`fromJSON(toJSON(t))` is, at the value level, the original objects with
every bigint-valued field replaced by its decimal string.  `RtVal` is the
runtime value universe and `TraceEvent.toRt` the runtime object (field
insertion order as in the builders). -/

inductive RtVal
  | num (n : Nat)
  | big (n : Nat)
  | str (s : String)
  | bool (b : Bool)
deriving DecidableEq

/-- The runtime object a builder creates, as an insertion-ordered field
list.  `index`/`pc` are numbers, `gasRemaining` a bigint; the remaining
payload fields were already stringified by the builder. -/
def TraceEvent.toRt : TraceEvent → List (String × RtVal)
  | .opcodeStart i pc g op name =>
      [("type", .str "opcode.start"), ("index", .num i), ("pc", .num pc),
       ("gasRemaining", .big g), ("opcode", .num op), ("opcodeName", .str name)]
  | .stackPush i pc g v =>
      [("type", .str "stack.push"), ("index", .num i), ("pc", .num pc),
       ("gasRemaining", .big g), ("value", .str v)]
  | .stackPop i pc g v =>
      [("type", .str "stack.pop"), ("index", .num i), ("pc", .num pc),
       ("gasRemaining", .big g), ("value", .str v)]
  | .memoryWrite i pc g off d =>
      [("type", .str "memory.write"), ("index", .num i), ("pc", .num pc),
       ("gasRemaining", .big g), ("offset", .num off), ("data", .str d)]
  | .memoryRead i pc g off len =>
      [("type", .str "memory.read"), ("index", .num i), ("pc", .num pc),
       ("gasRemaining", .big g), ("offset", .num off), ("length", .num len)]
  | .storageRead i pc g a k v =>
      [("type", .str "storage.read"), ("index", .num i), ("pc", .num pc),
       ("gasRemaining", .big g), ("address", .str a), ("key", .str k), ("value", .str v)]
  | .storageWrite i pc g a k v =>
      [("type", .str "storage.write"), ("index", .num i), ("pc", .num pc),
       ("gasRemaining", .big g), ("address", .str a), ("key", .str k), ("value", .str v)]
  | .gasCharge i pc g amt r =>
      [("type", .str "gas.charge"), ("index", .num i), ("pc", .num pc),
       ("gasRemaining", .big g), ("amount", .str amt), ("reason", .str r)]
  | .jump i pc g s d c t =>
      [("type", .str "jump"), ("index", .num i), ("pc", .num pc),
       ("gasRemaining", .big g), ("from", .num s), ("to", .num d),
       ("conditional", .bool c), ("taken", .bool t)]
  | .halt i pc g r =>
      [("type", .str "halt"), ("index", .num i), ("pc", .num pc),
       ("gasRemaining", .big g), ("reason", .str r.enumString)]

/-- What the stringify replacer followed by `JSON.parse` does to one
runtime value: bigints come back as their decimal strings, everything else
survives unchanged. -/
def RtVal.jsonRound : RtVal → RtVal
  | .big n => .str (decString n)
  | v => v

def objJsonRound (o : List (String × RtVal)) : List (String × RtVal) :=
  o.map fun p => (p.1, p.2.jsonRound)

/-- A collector as it exists after `fromJSON`: the events are raw parsed
objects, and the counter was re-established from the array length. -/
structure RawTraceCollector where
  events : List (List (String × RtVal))
  nextIndex : Nat
deriving DecidableEq

/-- The runtime event objects held by a collector. -/
def TraceCollector.runtimeEvents (c : TraceCollector) : List (List (String × RtVal)) :=
  c.events.map TraceEvent.toRt

/-- Value-level model of `TraceCollector.fromJSON(t.toJSON())` (see the
section comment above for the JSON text layer). -/
def TraceCollector.fromJSONtoJSON (c : TraceCollector) : RawTraceCollector :=
  ⟨(c.events.map TraceEvent.toRt).map objJsonRound, (c.events.map TraceEvent.toRt).length⟩

/-! ## MachineState (src/state/MachineState.ts) -/

structure MachineState where
  pc : Nat
  gasRemaining : Nat
  /-- The unused `stack` array field of `MachineState` (the interpreter
  keeps its operand stack in a separate `Stack` object). -/
  stack : List Word256
  memory : List Nat
  returnData : List Nat
  halted : Bool
  haltReason : Option HaltReason
deriving DecidableEq

namespace MachineState

def init (initialGas : Nat) : MachineState :=
  { pc := 0, gasRemaining := initialGas, stack := [], memory := [],
    returnData := [], halted := false, haltReason := none }

def halt (s : MachineState) (reason : HaltReason) : MachineState :=
  { s with halted := true, haltReason := some reason }

/-- `chargeGas`: throws (carrying the already-halted state) if the amount
exceeds the remaining gas, otherwise deducts. -/
def chargeGas (s : MachineState) (amount : Nat) : Except (VmError × MachineState) MachineState :=
  if s.gasRemaining < amount then .error (.outOfGas, s.halt .OUT_OF_GAS)
  else .ok { s with gasRemaining := s.gasRemaining - amount }

def getMemorySize (s : MachineState) : Nat := s.memory.length

/-- `expandMemory(offset, length)`: returns the quadratic expansion cost
and the state with memory grown (zero-filled) to the next 32-byte
multiple.  `Math.ceil(r / 32) * 32 = (r + 31) / 32 * 32` in `Nat`. -/
def expandMemory (s : MachineState) (offset length : Nat) : Nat × MachineState :=
  if length = 0 then (0, s)
  else
    let requiredSize := offset + length
    let currentSize := s.memory.length
    if requiredSize ≤ currentSize then (0, s)
    else
      let newSize := (requiredSize + 31) / 32 * 32
      let currentWords := currentSize / 32
      let newWords := newSize / 32
      let cost := (newWords * 3 + newWords ^ 2 / 512) - (currentWords * 3 + currentWords ^ 2 / 512)
      (cost, { s with memory := s.memory ++ List.replicate (newSize - currentSize) 0 })

/-- `readMemory`: expands if needed (without charging), then
`memory.slice(offset, offset + length)`. -/
def readMemory (s : MachineState) (offset length : Nat) : List Nat × MachineState :=
  if length = 0 then ([], s)
  else
    let s1 := if s.memory.length < offset + length then (s.expandMemory offset length).2 else s
    ((s1.memory.drop offset).take length, s1)

/-- `memory.set(data, offset)` once the target range exists. -/
def overwrite (mem : List Nat) (offset : Nat) (data : List Nat) : List Nat :=
  mem.take offset ++ data ++ mem.drop (offset + data.length)

/-- `writeMemory`: expands if needed (without charging), then overwrites. -/
def writeMemory (s : MachineState) (offset : Nat) (data : List Nat) : MachineState :=
  if data.length = 0 then s
  else
    let s1 := if s.memory.length < offset + data.length then (s.expandMemory offset data.length).2 else s
    { s1 with memory := overwrite s1.memory offset data }

end MachineState

/-! ## Stack (src/state/Stack.ts)

The items array is modelled head-at-top: JS index `length - 1 - depth`
is list position `depth`. -/

def MAX_STACK_DEPTH : Nat := 1024

def stackPushRaw (items : List Word256) (w : Word256) : Except VmError (List Word256) :=
  if MAX_STACK_DEPTH ≤ items.length then .error .stackOverflow
  else .ok (w :: items)

def stackPopRaw (items : List Word256) : Except VmError (Word256 × List Word256) :=
  match items with
  | [] => .error .stackUnderflow
  | w :: rest => .ok (w, rest)

def stackPeekAt (items : List Word256) (depth : Nat) : Except VmError Word256 :=
  if depth < items.length then .ok (items.getD depth Word256.zero)
  else .error .stackUnderflow

/-- `swap(n)`: exchange the top with the item at depth `n`. -/
def stackSwap (items : List Word256) (n : Nat) : Except VmError (List Word256) :=
  if n < 1 ∨ 16 < n then .error .stackUnderflow
  else if items.length < n + 1 then .error .stackUnderflow
  else .ok ((items.set 0 (items.getD n Word256.zero)).set n (items.getD 0 Word256.zero))

/-- `dup(n)`: push a copy of the item at depth `n - 1`. -/
def stackDup (items : List Word256) (n : Nat) : Except VmError (List Word256) :=
  if n < 1 ∨ 16 < n then .error .stackUnderflow
  else if items.length < n then .error .stackUnderflow
  else if MAX_STACK_DEPTH ≤ items.length then .error .stackOverflow
  else .ok (items.getD (n - 1) Word256.zero :: items)

/-! ## Host (src/host/Host.ts) and MemoryHost (src/host/MemoryHost.ts) -/

structure LogEntry where
  address : Address
  topics : List Word256
  data : List Nat
deriving DecidableEq

/-- The `Host` capability, over a deterministic host state `σ`: pure
queries and state-transforming effects. -/
structure Host (σ : Type) where
  sload : σ → Address → Word256 → Word256
  sstore : σ → Address → Word256 → Word256 → σ
  log : σ → LogEntry → σ
  getAddress : σ → Address

structure MemoryHost where
  storage : List (String × Word256)
  logs : List LogEntry
  address : Address
deriving DecidableEq

namespace MemoryHost

def empty : MemoryHost := ⟨[], [], Address.zero⟩

/-- Storage key format: `"address:key"` (hex without `0x`). -/
def storageKey (a : Address) (k : Word256) : String :=
  a.toHex ++ ":" ++ k.toHex

/-- `Map.set`: replace in place if present, else append. -/
def setAssoc (m : List (String × Word256)) (k : String) (v : Word256) :
    List (String × Word256) :=
  if m.any (fun p => p.1 = k) then m.map (fun p => if p.1 = k then (k, v) else p)
  else m ++ [(k, v)]

def sload (h : MemoryHost) (a : Address) (k : Word256) : Word256 :=
  match h.storage.lookup (storageKey a k) with
  | some v => v
  | none => Word256.zero

def sstore (h : MemoryHost) (a : Address) (k : Word256) (v : Word256) : MemoryHost :=
  let key := storageKey a k
  if v.isZero then { h with storage := h.storage.filter (fun p => p.1 ≠ key) }
  else { h with storage := setAssoc h.storage key v }

def log (h : MemoryHost) (e : LogEntry) : MemoryHost :=
  { h with logs := h.logs ++ [e] }

def getAddress (h : MemoryHost) : Address := h.address

end MemoryHost

/-- The `Host` capability of the in-memory reference host. -/
def memoryHostImpl : Host MemoryHost :=
  ⟨MemoryHost.sload, MemoryHost.sstore, MemoryHost.log, MemoryHost.getAddress⟩

/-! ## Opcode table (src/opcodes/Opcode.ts) -/

def isPushOpcode (op : Nat) : Bool := 0x60 ≤ op && op ≤ 0x7f

def getPushBytes (op : Nat) : Nat := if isPushOpcode op then op - 0x5f else 0

/-- `Opcode[opcode]` reverse enum lookup (entries reachable from
`getOpcodeName`, i.e. outside the PUSH/DUP/SWAP ranges). -/
def opcodeEnumName (op : Nat) : Option String :=
  if op = 0x00 then some "STOP" else if op = 0x01 then some "ADD"
  else if op = 0x02 then some "MUL" else if op = 0x03 then some "SUB"
  else if op = 0x04 then some "DIV" else if op = 0x05 then some "SDIV"
  else if op = 0x06 then some "MOD" else if op = 0x07 then some "SMOD"
  else if op = 0x08 then some "ADDMOD" else if op = 0x09 then some "MULMOD"
  else if op = 0x0a then some "EXP" else if op = 0x0b then some "SIGNEXTEND"
  else if op = 0x10 then some "LT" else if op = 0x11 then some "GT"
  else if op = 0x12 then some "SLT" else if op = 0x13 then some "SGT"
  else if op = 0x14 then some "EQ" else if op = 0x15 then some "ISZERO"
  else if op = 0x16 then some "AND" else if op = 0x17 then some "OR"
  else if op = 0x18 then some "XOR" else if op = 0x19 then some "NOT"
  else if op = 0x1a then some "BYTE" else if op = 0x1b then some "SHL"
  else if op = 0x1c then some "SHR" else if op = 0x1d then some "SAR"
  else if op = 0x20 then some "KECCAK256" else if op = 0x30 then some "ADDRESS"
  else if op = 0x31 then some "BALANCE" else if op = 0x32 then some "ORIGIN"
  else if op = 0x33 then some "CALLER" else if op = 0x34 then some "CALLVALUE"
  else if op = 0x35 then some "CALLDATALOAD" else if op = 0x36 then some "CALLDATASIZE"
  else if op = 0x37 then some "CALLDATACOPY" else if op = 0x38 then some "CODESIZE"
  else if op = 0x39 then some "CODECOPY" else if op = 0x3a then some "GASPRICE"
  else if op = 0x50 then some "POP" else if op = 0x51 then some "MLOAD"
  else if op = 0x52 then some "MSTORE" else if op = 0x53 then some "MSTORE8"
  else if op = 0x54 then some "SLOAD" else if op = 0x55 then some "SSTORE"
  else if op = 0x56 then some "JUMP" else if op = 0x57 then some "JUMPI"
  else if op = 0x58 then some "PC" else if op = 0x59 then some "MSIZE"
  else if op = 0x5a then some "GAS" else if op = 0x5b then some "JUMPDEST"
  else if op = 0xa0 then some "LOG0" else if op = 0xa1 then some "LOG1"
  else if op = 0xa2 then some "LOG2" else if op = 0xa3 then some "LOG3"
  else if op = 0xa4 then some "LOG4" else if op = 0xf3 then some "RETURN"
  else if op = 0xfd then some "REVERT" else if op = 0xfe then some "INVALID"
  else none

def getOpcodeName (op : Nat) : String :=
  if isPushOpcode op then "PUSH" ++ decString (op - 0x5f)
  else if 0x80 ≤ op ∧ op ≤ 0x8f then "DUP" ++ decString (op - 0x7f)
  else if 0x90 ≤ op ∧ op ≤ 0x9f then "SWAP" ++ decString (op - 0x8f)
  else
    match opcodeEnumName op with
    | some n => n
    | none => "UNKNOWN(0x" ++ ⟨byteHex op⟩ ++ ")"

/-! ## Jump-destination analysis (src/opcodes/controlflow.ts) -/

/-- One-pass scan: a `0x5b` byte is a valid target unless it lies inside
PUSH immediate data (the scan jumps over `1 + pushBytes` on a PUSH).  The
fuel (initially the bytecode length) bounds the strictly-advancing walk. -/
def buildJumpDestsAux (bytecode : List Nat) : Nat → Nat → List Nat
  | 0, _ => []
  | fuel + 1, i =>
    if i < bytecode.length then
      let opcode := bytecode.getD i 0
      if opcode = 0x5b then i :: buildJumpDestsAux bytecode fuel (i + 1)
      else if 0x60 ≤ opcode ∧ opcode ≤ 0x7f then
        buildJumpDestsAux bytecode fuel (i + 1 + (opcode - 0x5f))
      else buildJumpDestsAux bytecode fuel (i + 1)
    else []

def buildJumpDestinations (bytecode : List Nat) : List Nat :=
  buildJumpDestsAux bytecode bytecode.length 0

/-! ## Interpreter (src/interpreter/Interpreter.ts)

The interpreter instance: immutable `bytecode`, `calldata` and
`validJumpDests`, mutable `state`, `stack`, `trace` and the external host
state.  A handler either returns the updated instance or throws, carrying
the instance as mutated up to the throw. -/

structure Interp (σ : Type) where
  bytecode : List Nat
  calldata : List Nat
  state : MachineState
  stack : List Word256
  trace : TraceCollector
  validJumpDests : List Nat
  host : σ
deriving DecidableEq

/-- Handler result: normal return or a thrown `VmError` with the state at
the throw. -/
abbrev HRes (σ : Type) := Except (VmError × Interp σ) (Interp σ)

/-- Exception-propagating sequencing of two statements. -/
def bindE (x : Except ε α) (f : α → Except ε β) : Except ε β :=
  match x with
  | .error e => .error e
  | .ok a => f a

/-- `bindE` for the pair-returning operations (pop and friends). -/
def bindE2 (x : Except ε (α × β)) (f : α → β → Except ε γ) : Except ε γ :=
  match x with
  | .error e => .error e
  | .ok p => f p.1 p.2

namespace Interp

/-- The `const ev = TraceEventBuilder.x(trace.getNextIndex(), ...);
trace.record(ev)` pattern: draw the next index, build, append. -/
def record (it : Interp σ) (mk : Nat → TraceEvent) : Interp σ :=
  let p := it.trace.getNextIndex
  { it with trace := p.2.record (mk p.1) }

/-- `state.chargeGas(amount)` lifted to the instance. -/
def chargeGas (it : Interp σ) (amount : Nat) : HRes σ :=
  match it.state.chargeGas amount with
  | .ok s => .ok { it with state := s }
  | .error (e, s) => .error (e, { it with state := s })

/-- Charge then record the `GasCharge` event (the event reads `state.pc`
and `state.gasRemaining` after the deduction). -/
def chargeAndRecord (it : Interp σ) (amount : Nat) (reason : String) : HRes σ :=
  match it.chargeGas amount with
  | .error e => .error e
  | .ok it1 =>
      .ok (it1.record fun i =>
        TraceEventBuilder.gasCharge i it1.state.pc it1.state.gasRemaining amount reason)

/-- `stack.pop()` with no trace event (the storage and logging handlers
pop this way). -/
def popBare (it : Interp σ) : Except (VmError × Interp σ) (Word256 × Interp σ) :=
  match stackPopRaw it.stack with
  | .error e => .error (e, it)
  | .ok (w, rest) => .ok (w, { it with stack := rest })

/-- `stack.pop()` followed by a `StackPop` event. -/
def popRecord (it : Interp σ) : Except (VmError × Interp σ) (Word256 × Interp σ) :=
  match stackPopRaw it.stack with
  | .error e => .error (e, it)
  | .ok (w, rest) =>
      let it1 := { it with stack := rest }
      .ok (w, it1.record fun i =>
        TraceEventBuilder.stackPop i it1.state.pc it1.state.gasRemaining w)

/-- `stack.push(w)` with no trace event (`executeSLOAD` pushes this
way). -/
def pushBare (it : Interp σ) (w : Word256) : HRes σ :=
  match stackPushRaw it.stack w with
  | .error e => .error (e, it)
  | .ok items => .ok { it with stack := items }

/-- `stack.push(w)` followed by a `StackPush` event. -/
def pushRecord (it : Interp σ) (w : Word256) : HRes σ :=
  match stackPushRaw it.stack w with
  | .error e => .error (e, it)
  | .ok items =>
      let it1 := { it with stack := items }
      .ok (it1.record fun i =>
        TraceEventBuilder.stackPush i it1.state.pc it1.state.gasRemaining w)

def advancePC (it : Interp σ) (k : Nat) : Interp σ :=
  { it with state := { it.state with pc := it.state.pc + k } }

def setState (it : Interp σ) (s : MachineState) : Interp σ := { it with state := s }

def haltWith (it : Interp σ) (r : HaltReason) : Interp σ :=
  { it with state := it.state.halt r }

end Interp

/-! ## Opcode handlers -/

/-- Attach the instance at the throw point to a raw stack-operation
error (the exception unwinds out of the `Stack` method into the
handler). -/
def liftStackErr (it : Interp σ) (x : Except VmError α) : Except (VmError × Interp σ) α :=
  match x with
  | .error e => .error (e, it)
  | .ok a => .ok a

/-- Common body of `executeAdd` / `executeMul` / `executeSub` /
`executeDiv` (the four sources are textually identical up to gas cost,
reason string and the `Word256` operation): charge+record, pop `b`, pop
`a`, push `f a b`, advance. -/
def binArith (cost : Nat) (reason : String) (f : Word256 → Word256 → Word256)
    (it : Interp σ) : HRes σ :=
  bindE (it.chargeAndRecord cost reason) fun it1 =>
  bindE2 it1.popRecord fun b it2 =>
  bindE2 it2.popRecord fun a it3 =>
  bindE (it3.pushRecord (f a b)) fun it4 =>
  .ok (it4.advancePC 1)

def executeAdd (it : Interp σ) : HRes σ := binArith 3 "ADD" Word256.add it
def executeMul (it : Interp σ) : HRes σ := binArith 5 "MUL" Word256.mul it
def executeSub (it : Interp σ) : HRes σ := binArith 3 "SUB" Word256.sub it
def executeDiv (it : Interp σ) : HRes σ := binArith 5 "DIV" Word256.div it

/-- STOP (0x00): no gas, halt with `Stop`. -/
def executeStop (it : Interp σ) : HRes σ :=
  .ok (it.haltWith .STOP)

/-- POP (0x50). -/
def executePOP (it : Interp σ) : HRes σ :=
  bindE (it.chargeAndRecord 2 "POP") fun it1 =>
  bindE2 it1.popRecord fun _ it2 =>
  .ok (it2.advancePC 1)

/-- DUP1-DUP16 (0x80-0x8f): peek the value first (for the event), then
`stack.dup(n)`, then record the push event. -/
def executeDUP (opcode : Nat) (it : Interp σ) : HRes σ :=
  let n := opcode - 0x7f
  bindE (it.chargeAndRecord 3 ("DUP" ++ decString n)) fun it1 =>
  bindE (liftStackErr it1 (stackPeekAt it1.stack (n - 1))) fun value =>
  bindE (liftStackErr it1 (stackDup it1.stack n)) fun items =>
  let it2 := { it1 with stack := items }
  .ok ((it2.record fun i =>
    TraceEventBuilder.stackPush i it2.state.pc it2.state.gasRemaining value).advancePC 1)

/-- SWAP1-SWAP16 (0x90-0x9f): no pop/push events are emitted. -/
def executeSWAP (opcode : Nat) (it : Interp σ) : HRes σ :=
  let n := opcode - 0x8f
  bindE (it.chargeAndRecord 3 ("SWAP" ++ decString n)) fun it1 =>
  bindE (liftStackErr it1 (stackSwap it1.stack n)) fun items =>
  .ok ({ it1 with stack := items }.advancePC 1)

/-- Fold of `value = (value << 8n) | BigInt(data[i])` over a byte list. -/
def bytesFoldBE (data : List Nat) : Nat :=
  data.foldl (fun a b => (a <<< 8) ||| b) 0

/-- MLOAD (0x51). -/
def executeMLOAD (it : Interp σ) : HRes σ :=
  bindE (it.chargeAndRecord 3 "MLOAD") fun it1 =>
  bindE2 it1.popRecord fun offsetWord it2 =>
  let offset := offsetWord.value
  let p := it2.state.expandMemory offset 32
  let it3 := it2.setState p.2
  bindE (if 0 < p.1 then it3.chargeAndRecord p.1 "MLOAD memory expansion" else .ok it3)
    fun it4 =>
  let q := it4.state.readMemory offset 32
  let it5 := (it4.setState q.2).record fun i =>
    TraceEventBuilder.memoryRead i q.2.pc q.2.gasRemaining offset 32
  let value := bytesFoldBE q.1 <<< (8 * (32 - q.1.length))
  bindE (it5.pushRecord (Word256.ofNat value)) fun it6 =>
  .ok (it6.advancePC 1)

/-- MSTORE (0x52).  The handler re-implements the big-endian 32-byte
split; it equals `Word256.toBytes`. -/
def executeMSTORE (it : Interp σ) : HRes σ :=
  bindE (it.chargeAndRecord 3 "MSTORE") fun it1 =>
  bindE2 it1.popRecord fun offsetWord it2 =>
  bindE2 it2.popRecord fun value it3 =>
  let offset := offsetWord.value
  let p := it3.state.expandMemory offset 32
  let it4 := it3.setState p.2
  bindE (if 0 < p.1 then it4.chargeAndRecord p.1 "MSTORE memory expansion" else .ok it4)
    fun it5 =>
  let bytes := value.toBytes
  let it6 := it5.setState (it5.state.writeMemory offset bytes)
  .ok ((it6.record fun i =>
    TraceEventBuilder.memoryWrite i it6.state.pc it6.state.gasRemaining offset bytes).advancePC 1)

/-- MSTORE8 (0x53). -/
def executeMSTORE8 (it : Interp σ) : HRes σ :=
  bindE (it.chargeAndRecord 3 "MSTORE8") fun it1 =>
  bindE2 it1.popRecord fun offsetWord it2 =>
  bindE2 it2.popRecord fun value it3 =>
  let offset := offsetWord.value
  let p := it3.state.expandMemory offset 1
  let it4 := it3.setState p.2
  bindE (if 0 < p.1 then it4.chargeAndRecord p.1 "MSTORE8 memory expansion" else .ok it4)
    fun it5 =>
  let byte := [value.value % 256]
  let it6 := it5.setState (it5.state.writeMemory offset byte)
  .ok ((it6.record fun i =>
    TraceEventBuilder.memoryWrite i it6.state.pc it6.state.gasRemaining offset byte).advancePC 1)

/-- MSIZE (0x59). -/
def executeMSIZE (it : Interp σ) : HRes σ :=
  bindE (it.chargeAndRecord 2 "MSIZE") fun it1 =>
  bindE (it1.pushRecord (Word256.ofNat it1.state.getMemorySize)) fun it2 =>
  .ok (it2.advancePC 1)

/-- CALLDATALOAD (0x35): 32 bytes from calldata, zero past the end. -/
def executeCALLDATALOAD (it : Interp σ) : HRes σ :=
  bindE (it.chargeAndRecord 3 "CALLDATALOAD") fun it1 =>
  bindE2 it1.popRecord fun offsetWord it2 =>
  let offset := offsetWord.value
  let data := (List.range 32).map fun i =>
    if offset + i < it2.calldata.length then it2.calldata.getD (offset + i) 0 else 0
  bindE (it2.pushRecord (Word256.ofNat (bytesFoldBE data))) fun it3 =>
  .ok (it3.advancePC 1)

/-- CALLDATASIZE (0x36). -/
def executeCALLDATASIZE (it : Interp σ) : HRes σ :=
  bindE (it.chargeAndRecord 2 "CALLDATASIZE") fun it1 =>
  bindE (it1.pushRecord (Word256.ofNat it1.calldata.length)) fun it2 =>
  .ok (it2.advancePC 1)

/-- CALLDATACOPY (0x37). -/
def executeCALLDATACOPY (it : Interp σ) : HRes σ :=
  bindE (it.chargeAndRecord 3 "CALLDATACOPY") fun it1 =>
  bindE2 it1.popRecord fun destOffsetWord it2 =>
  bindE2 it2.popRecord fun offsetWord it3 =>
  bindE2 it3.popRecord fun lengthWord it4 =>
  let destOffset := destOffsetWord.value
  let offset := offsetWord.value
  let length := lengthWord.value
  let copyGas := ((length + 31) / 32) * 3
  bindE (if 0 < copyGas then it4.chargeAndRecord copyGas "CALLDATACOPY copy cost" else .ok it4)
    fun it5 =>
  bindE (if 0 < length then
      let p := it5.state.expandMemory destOffset length
      let it6 := it5.setState p.2
      if 0 < p.1 then it6.chargeAndRecord p.1 "CALLDATACOPY memory expansion" else .ok it6
    else .ok it5) fun it7 =>
  let data := (List.range length).map fun i =>
    if offset + i < it7.calldata.length then it7.calldata.getD (offset + i) 0 else 0
  if 0 < length then
    let it8 := it7.setState (it7.state.writeMemory destOffset data)
    .ok ((it8.record fun i =>
      TraceEventBuilder.memoryWrite i it8.state.pc it8.state.gasRemaining
        destOffset data).advancePC 1)
  else .ok (it7.advancePC 1)

/-- Common body of RETURN (0xf3) and REVERT (0xfd): no base gas; pop
offset then length, expand+charge if length > 0, set return data, halt. -/
def returnLike (reason : HaltReason) (it : Interp σ) : HRes σ :=
  bindE2 it.popRecord fun offsetWord it1 =>
  bindE2 it1.popRecord fun lengthWord it2 =>
  let offset := offsetWord.value
  let length := lengthWord.value
  if 0 < length then
    let p := it2.state.expandMemory offset length
    let it3 := it2.setState p.2
    bindE (if 0 < p.1 then
        it3.chargeAndRecord p.1 (reason.enumString ++ " memory expansion")
      else .ok it3) fun it4 =>
    let q := it4.state.readMemory offset length
    let it5 := it4.setState { q.2 with returnData := q.1 }
    .ok (it5.haltWith reason)
  else
    .ok ((it2.setState { it2.state with returnData := [] }).haltWith reason)

def executeRETURN (it : Interp σ) : HRes σ := returnLike .RETURN it
def executeREVERT (it : Interp σ) : HRes σ := returnLike .REVERT it

/-- PC (0x58): pushes the pre-increment program counter. -/
def executePC (it : Interp σ) : HRes σ :=
  bindE (it.chargeAndRecord 2 "PC") fun it1 =>
  bindE (it1.pushRecord (Word256.ofNat it1.state.pc)) fun it2 =>
  .ok (it2.advancePC 1)

/-- JUMPDEST (0x5b): 1 gas, no operand effect. -/
def executeJUMPDEST (it : Interp σ) : HRes σ :=
  bindE (it.chargeAndRecord 1 "JUMPDEST") fun it1 =>
  .ok (it1.advancePC 1)

/-- JUMP (0x56): the `Jump` event is recorded (with `taken = true`)
before the destination is validated. -/
def executeJUMP (it : Interp σ) : HRes σ :=
  bindE (it.chargeAndRecord 8 "JUMP") fun it1 =>
  bindE2 it1.popRecord fun dest it2 =>
  let destPC := dest.value
  let it3 := it2.record fun i =>
    TraceEventBuilder.jump i it2.state.pc it2.state.gasRemaining it2.state.pc destPC
      false true
  if it3.bytecode.length ≤ destPC then .ok (it3.haltWith .INVALID_JUMP)
  else if !(it3.validJumpDests.contains destPC) then .ok (it3.haltWith .INVALID_JUMP)
  else .ok (it3.setState { it3.state with pc := destPC })

/-- JUMPI (0x57): pop condition then destination; record the `Jump`
event with `taken = condition ≠ 0`; validate only when taken. -/
def executeJUMPI (it : Interp σ) : HRes σ :=
  bindE (it.chargeAndRecord 10 "JUMPI") fun it1 =>
  bindE2 it1.popRecord fun condition it2 =>
  bindE2 it2.popRecord fun dest it3 =>
  let shouldJump := condition.value ≠ 0
  let destPC := dest.value
  let it4 := it3.record fun i =>
    TraceEventBuilder.jump i it3.state.pc it3.state.gasRemaining it3.state.pc destPC
      true shouldJump
  if !shouldJump then .ok (it4.advancePC 1)
  else if it4.bytecode.length ≤ destPC then .ok (it4.haltWith .INVALID_JUMP)
  else if !(it4.validJumpDests.contains destPC) then .ok (it4.haltWith .INVALID_JUMP)
  else .ok (it4.setState { it4.state with pc := destPC })

/-- SLOAD (0x54): bare `chargeGas(200)` with no `GasCharge` event, bare
pop with no `StackPop` event, `StorageRead` event, bare push. -/
def executeSLOAD (H : Host σ) (it : Interp σ) : HRes σ :=
  bindE (it.chargeGas 200) fun it1 =>
  bindE2 it1.popBare fun key it2 =>
  let address := H.getAddress it2.host
  let value := H.sload it2.host address key
  let it3 := it2.record fun i =>
    TraceEventBuilder.storageRead i it2.state.pc it2.state.gasRemaining address key value
  bindE (it3.pushBare value) fun it4 =>
  .ok (it4.advancePC 1)

/-- SSTORE (0x55): bare pops before the charge; 20000 gas on a zero →
non-zero transition, 5000 otherwise; `StorageWrite` event before the host
mutation; no `GasCharge` / `StackPop` events. -/
def executeSSTORE (H : Host σ) (it : Interp σ) : HRes σ :=
  bindE2 it.popBare fun key it1 =>
  bindE2 it1.popBare fun value it2 =>
  let address := H.getAddress it2.host
  let currentValue := H.sload it2.host address key
  let gasCost := if currentValue.isZero && !value.isZero then 20000 else 5000
  bindE (it2.chargeGas gasCost) fun it3 =>
  let it4 := it3.record fun i =>
    TraceEventBuilder.storageWrite i it3.state.pc it3.state.gasRemaining address key value
  let it5 := { it4 with host := H.sstore it4.host address key value }
  .ok (it5.advancePC 1)

/-- Pop `n` values in sequence without trace events (the LOG topics). -/
def popBareN (n : Nat) (it : Interp σ) :
    Except (VmError × Interp σ) (List Word256 × Interp σ) :=
  match n with
  | 0 => .ok ([], it)
  | k + 1 =>
    bindE2 it.popBare fun w it1 =>
    bindE2 (popBareN k it1) fun ws it2 =>
    .ok (w :: ws, it2)

/-- Common body of LOG0-LOG4 (0xa0-0xa4), parameterized by topic count.
Bare pops, gas `375 + 375·topics + 8·length + expansion` charged with no
`GasCharge` event, `host.log`, and then the call of the non-existent
`TraceEventBuilder.log`: the member access yields `undefined`, the
argument `trace.getNextIndex()` is still evaluated (incrementing the
counter), and the call itself throws a `TypeError` that
`Interpreter.step` does not catch. -/
def executeLOGn (H : Host σ) (topicCount : Nat) (it : Interp σ) : HRes σ :=
  bindE2 it.popBare fun offsetWord it1 =>
  bindE2 it1.popBare fun lengthWord it2 =>
  bindE2 (popBareN topicCount it2) fun topics it3 =>
  let offset := offsetWord.value
  let length := lengthWord.value
  let p := it3.state.expandMemory offset length
  let gasCost := 375 + topicCount * 375 + 8 * length + p.1
  let it4 := it3.setState p.2
  bindE (it4.chargeGas gasCost) fun it5 =>
  let q := it5.state.readMemory offset length
  let it6 := it5.setState q.2
  let address := H.getAddress it6.host
  let it7 := { it6 with host := H.log it6.host ⟨address, topics, q.1⟩ }
  let idx := it7.trace.getNextIndex
  .error (.typeError, { it7 with trace := idx.2 })

def executeLOG0 (H : Host σ) (it : Interp σ) : HRes σ := executeLOGn H 0 it
def executeLOG1 (H : Host σ) (it : Interp σ) : HRes σ := executeLOGn H 1 it
def executeLOG2 (H : Host σ) (it : Interp σ) : HRes σ := executeLOGn H 2 it
def executeLOG3 (H : Host σ) (it : Interp σ) : HRes σ := executeLOGn H 3 it
def executeLOG4 (H : Host σ) (it : Interp σ) : HRes σ := executeLOGn H 4 it

/-- The accumulation loop reading the PUSH immediate: missing trailing
bytes shift zeros into the low end. -/
def pushImmediate (bytecode : List Nat) (pc numBytes : Nat) : Nat :=
  (List.range numBytes).foldl
    (fun acc j =>
      if pc + (j + 1) < bytecode.length then (acc <<< 8) ||| bytecode.getD (pc + (j + 1)) 0
      else acc <<< 8) 0

/-- `Interpreter.executePush`: charge+record, read the immediate, push
(+event), advance `1 + n`. -/
def executePush (opcode : Nat) (it : Interp σ) : HRes σ :=
  let numBytes := getPushBytes opcode
  bindE (it.chargeAndRecord 3 ("PUSH" ++ decString numBytes)) fun it1 =>
  let word := Word256.ofNat (pushImmediate it1.bytecode it1.state.pc numBytes)
  bindE (it1.pushRecord word) fun it2 =>
  .ok (it2.advancePC (1 + numBytes))

/-- `Interpreter.executeOpcode`: range checks for PUSH/DUP/SWAP, then the
switch; unknown bytes halt with `INVALID_OPCODE`. -/
def executeOpcode (H : Host σ) (opcode : Nat) (it : Interp σ) : HRes σ :=
  if isPushOpcode opcode then executePush opcode it
  else if 0x80 ≤ opcode ∧ opcode ≤ 0x8f then executeDUP opcode it
  else if 0x90 ≤ opcode ∧ opcode ≤ 0x9f then executeSWAP opcode it
  else if opcode = 0x00 then executeStop it
  else if opcode = 0x01 then executeAdd it
  else if opcode = 0x02 then executeMul it
  else if opcode = 0x03 then executeSub it
  else if opcode = 0x04 then executeDiv it
  else if opcode = 0x50 then executePOP it
  else if opcode = 0x51 then executeMLOAD it
  else if opcode = 0x52 then executeMSTORE it
  else if opcode = 0x53 then executeMSTORE8 it
  else if opcode = 0x59 then executeMSIZE it
  else if opcode = 0x35 then executeCALLDATALOAD it
  else if opcode = 0x36 then executeCALLDATASIZE it
  else if opcode = 0x37 then executeCALLDATACOPY it
  else if opcode = 0xf3 then executeRETURN it
  else if opcode = 0xfd then executeREVERT it
  else if opcode = 0x58 then executePC it
  else if opcode = 0x56 then executeJUMP it
  else if opcode = 0x57 then executeJUMPI it
  else if opcode = 0x5b then executeJUMPDEST it
  else if opcode = 0x54 then executeSLOAD H it
  else if opcode = 0x55 then executeSSTORE H it
  else if opcode = 0xa0 then executeLOG0 H it
  else if opcode = 0xa1 then executeLOG1 H it
  else if opcode = 0xa2 then executeLOG2 H it
  else if opcode = 0xa3 then executeLOG3 H it
  else if opcode = 0xa4 then executeLOG4 H it
  else .ok (it.haltWith .INVALID_OPCODE)

/-- The try/catch of `Interpreter.step`: StackError messages are turned
into `StackUnderflow`/`StackOverflow` halts, "Out of gas" is swallowed
(the state is already halted), anything else is rethrown. -/
def catchStep (r : HRes σ) : HRes σ :=
  match r with
  | .ok it2 => .ok it2
  | .error (.stackUnderflow, it2) => .ok (it2.haltWith .STACK_UNDERFLOW)
  | .error (.stackOverflow, it2) => .ok (it2.haltWith .STACK_OVERFLOW)
  | .error (.outOfGas, it2) => .ok it2
  | .error (.typeError, it2) => .error (.typeError, it2)

/-- `Interpreter.step()`: halted check, implicit STOP past the end,
`OpcodeStart`, dispatch inside try/catch, terminal `Halt` event. -/
def step (H : Host σ) (it : Interp σ) : Except (VmError × Interp σ) (Bool × Interp σ) :=
  if it.state.halted then .ok (false, it)
  else if it.bytecode.length ≤ it.state.pc then
    let it1 := it.haltWith .STOP
    .ok (false, it1.record fun i =>
      TraceEventBuilder.halt i it1.state.pc it1.state.gasRemaining .STOP)
  else
    let opcode := it.bytecode.getD it.state.pc 0
    let it1 := it.record fun i =>
      TraceEventBuilder.opcodeStart i it.state.pc it.state.gasRemaining opcode
        (getOpcodeName opcode)
    bindE (catchStep (executeOpcode H opcode it1)) fun it2 =>
    if it2.state.halted ∧ it2.state.haltReason.isSome then
      .ok (false, it2.record fun i =>
        TraceEventBuilder.halt i it2.state.pc it2.state.gasRemaining
          (it2.state.haltReason.getD .STOP))
    else .ok (!it2.state.halted, it2)

/-- `Interpreter.run()`: step until `false`; fuel models the loop (the
run reaches a halt iff some fuel returns `some`). -/
def runFuel (H : Host σ) : Nat → Interp σ → Except (VmError × Interp σ) (Option (Interp σ))
  | 0, _ => .ok none
  | fuel + 1, it =>
    bindE2 (step H it) fun continue1 it1 =>
    if continue1 then runFuel H fuel it1 else .ok (some it1)

/-- The interpreter constructor. -/
def mkInterp (bytecode calldata : List Nat) (initialGas : Nat) (host : σ) : Interp σ :=
  { bytecode := bytecode, calldata := calldata, state := MachineState.init initialGas,
    stack := [], trace := TraceCollector.empty,
    validJumpDests := buildJumpDestinations bytecode, host := host }

/-- Did `run()` propagate an exception to the caller? -/
def runRaises (r : Except (VmError × Interp σ) (Option (Interp σ))) : Bool :=
  match r with
  | .error _ => true
  | .ok _ => false

/-! ## Observables used by the invariant claims -/

/-- The interpreter instance as left behind by a handler: the returned
one on normal return, the one carried by the exception on a throw. -/
def resState : Except (VmError × Interp σ) (Interp σ) → Interp σ
  | .ok a => a
  | .error e => e.2

/-- As `resState`, for the pair-returning operations. -/
def resState2 : Except (VmError × Interp σ) (β × Interp σ) → Interp σ
  | .ok p => p.2
  | .error e => e.2

/-- The `amount` a trace event contributes to the total gas charged
(`GasCharge.amount`, a decimal string, read back as a number). -/
def gasAmt : TraceEvent → Nat
  | .gasCharge _ _ _ amt _ => decParse amt
  | _ => 0

/-- Sum of the amounts of all `GasCharge` events. -/
def gasChargeTotal (evs : List TraceEvent) : Nat :=
  evs.foldr (fun e acc => gasAmt e + acc) 0

/-- The observables every canonical handler preserves: the (unused)
`MachineState.stack` array, the quantity
`gasChargeTotal trace + gasRemaining`, and the bytecode. -/
def frameG (it : Interp σ) : List Word256 × Nat × List Nat :=
  (it.state.stack, gasChargeTotal it.trace.events + it.state.gasRemaining, it.bytecode)

/-- The observables preserved even by the handlers that charge gas
without recording it (SLOAD, SSTORE, LOG0-LOG4). -/
def frameS (it : Interp σ) : List Word256 × List Nat :=
  (it.state.stack, it.bytecode)

/-- The opcode bytes whose handlers charge gas without recording a
`GasCharge` event: SLOAD, SSTORE, LOG0-LOG4. -/
def unmeteredTraceOpcodes : List Nat := [0x54, 0x55, 0xa0, 0xa1, 0xa2, 0xa3, 0xa4]

/-- Is the event a `GasCharge`? -/
def TraceEvent.isGasCharge : TraceEvent → Bool
  | .gasCharge _ _ _ _ _ => true
  | _ => false

/-- Is the event a `StackPop`? -/
def TraceEvent.isStackPop : TraceEvent → Bool
  | .stackPop _ _ _ _ => true
  | _ => false

/-- Is the event a `StackPush`? -/
def TraceEvent.isStackPush : TraceEvent → Bool
  | .stackPush _ _ _ _ => true
  | _ => false

/-- Position of an event kind in the canonical handler order: baseline
`GasCharge` (reason a bare mnemonic, no space in it) first, then the
`StackPop`s, then dynamic `GasCharge`s (reason with a space: memory
expansion, copy cost) and the side-effect events, then the `StackPush`es.
`OpcodeStart` and `Halt` are recorded by `step`, never by a handler. -/
def TraceEvent.evRank : TraceEvent → Nat
  | .gasCharge _ _ _ _ reason => if reason.data.contains ' ' then 2 else 0
  | .stackPop _ _ _ _ => 1
  | .stackPush _ _ _ _ => 3
  | .opcodeStart _ _ _ _ _ => 0
  | .halt _ _ _ _ => 4
  | _ => 2

/-- The events appended between two instances form a block in rank order
with all ranks inside `[lo, hi]`, and carry one `StackPop` / `StackPush`
event per actual pop / push (stated as the length accounting identity on
the operand stack). -/
def rankedAppendIn (lo hi : Nat) (it itf : Interp σ) : Prop :=
  ∃ L, itf.trace.events = it.trace.events ++ L ∧
    List.Chain' (fun a b => TraceEvent.evRank a ≤ TraceEvent.evRank b) L ∧
    (∀ e ∈ L, lo ≤ TraceEvent.evRank e ∧ TraceEvent.evRank e ≤ hi) ∧
    itf.stack.length + (L.filter TraceEvent.isStackPop).length
      = it.stack.length + (L.filter TraceEvent.isStackPush).length

/-- The instance `run()` leaves behind: the final one on a normal halt,
the one carried by the exception on an uncaught throw, nothing when the
fuel was cut short. -/
def runResState : Except (VmError × Interp σ) (Option (Interp σ)) → Option (Interp σ)
  | .ok o => o
  | .error e => some e.2

/-- Did `run()` reach a halt and return normally? -/
def runHalts (r : Except (VmError × Interp σ) (Option (Interp σ))) : Bool :=
  match r with
  | .ok (some _) => true
  | _ => false

/-- Sum of the `GasCharge` amounts in the trace the run leaves behind. -/
def runGasChargeTotal (r : Except (VmError × Interp σ) (Option (Interp σ))) : Nat :=
  match runResState r with
  | some itF => gasChargeTotal itF.trace.events
  | none => 0

/-- `initialGas` minus the final `gasRemaining` of the run. -/
def runGasSpent (initialGas : Nat)
    (r : Except (VmError × Interp σ) (Option (Interp σ))) : Nat :=
  match runResState r with
  | some itF => initialGas - itF.state.gasRemaining
  | none => 0

/-- Number of trace events satisfying `p` in the trace the run leaves
behind. -/
def runEventCount (p : TraceEvent → Bool)
    (r : Except (VmError × Interp σ) (Option (Interp σ))) : Nat :=
  match runResState r with
  | some itF => (itF.trace.events.filter p).length
  | none => 0

/-- `PUSH1 00; SLOAD; STOP`: a run through an opcode that charges gas
without recording a `GasCharge` event. -/
def sloadBytecode : List Nat := [0x60, 0x00, 0x54, 0x00]

/-- Outcome of `run()` on `sloadBytecode` with 1000000 gas. -/
def sloadRunOutcome : Except (VmError × Interp MemoryHost) (Option (Interp MemoryHost)) :=
  runFuel memoryHostImpl 10 (mkInterp sloadBytecode [] 1000000 MemoryHost.empty)

/-- `PUSH1 01; PUSH1 00; SSTORE; STOP`: SSTORE pops twice and charges
20000 with no `StackPop` and no `GasCharge` event. -/
def sstoreBytecode : List Nat := [0x60, 0x01, 0x60, 0x00, 0x55, 0x00]

/-- Outcome of `run()` on `sstoreBytecode` with 100000 gas. -/
def sstoreRunOutcome : Except (VmError × Interp MemoryHost) (Option (Interp MemoryHost)) :=
  runFuel memoryHostImpl 10 (mkInterp sstoreBytecode [] 100000 MemoryHost.empty)

/-- `PUSH1 00; PUSH1 00; LOG0`: a well-formed program whose LOG0 has a
valid stack and ample gas. -/
def logBytecode : List Nat := [0x60, 0x00, 0x60, 0x00, 0xa0]

/-- Outcome of `run()` on `logBytecode` against the in-memory host. -/
def logRunOutcome : Except (VmError × Interp MemoryHost) (Option (Interp MemoryHost)) :=
  runFuel memoryHostImpl 10 (mkInterp logBytecode [] 1000000 MemoryHost.empty)

/-- The outcome is an uncaught `TypeError` thrown after the host already
received the log entry. -/
def isUncaughtTypeErrorAfterLog
    (r : Except (VmError × Interp MemoryHost) (Option (Interp MemoryHost))) : Bool :=
  match r with
  | .error (.typeError, st) => st.host.logs.length == 1
  | _ => false

end Evmix

namespace Evmix

/-! # Theorems -/

theorem ofDigitsBE_append (b : Nat) (xs ys : List Nat) :
    ofDigitsBE b (xs ++ ys) = (ys.foldl (fun a d => b * a + d) (ofDigitsBE b xs)) := by
  simp [ofDigitsBE, List.foldl_append]

theorem ofDigitsBE_toDigitsBE (b : Nat) (hb : 2 ≤ b) :
    ∀ (fuel n : Nat), n < b ^ fuel → ofDigitsBE b (toDigitsBE b fuel n) = n := by
  intro fuel
  induction fuel with
  | zero =>
    intro n hn
    rw [pow_zero] at hn
    interval_cases n
    simp [toDigitsBE, ofDigitsBE]
  | succ f ih =>
    intro n hn
    by_cases h0 : n = 0
    · simp [toDigitsBE, h0, ofDigitsBE]
    · have hdiv : n / b < b ^ f := by
        rw [Nat.div_lt_iff_lt_mul (by omega)]
        calc n < b ^ (f + 1) := hn
        _ = b ^ f * b := by ring
      have hih := ih (n / b) hdiv
      simp only [toDigitsBE, h0, if_false, ofDigitsBE_append, hih, List.foldl_cons,
        List.foldl_nil]
      exact Nat.div_add_mod n b

theorem toDigitsBE_length_le (b : Nat) (hb : 2 ≤ b) :
    ∀ (fuel n k : Nat), n < b ^ k → (toDigitsBE b fuel n).length ≤ k := by
  intro fuel
  induction fuel with
  | zero => intro n k _; simp [toDigitsBE]
  | succ f ih =>
    intro n k hn
    by_cases h0 : n = 0
    · simp [toDigitsBE, h0]
    · have hk : k ≠ 0 := by
        rintro rfl
        simp at hn
        omega
      obtain ⟨k', rfl⟩ : ∃ k', k = k' + 1 := ⟨k - 1, by omega⟩
      have hdiv : n / b < b ^ k' := by
        rw [Nat.div_lt_iff_lt_mul (by omega)]
        calc n < b ^ (k' + 1) := hn
        _ = b ^ k' * b := by ring
      have := ih (n / b) k' hdiv
      simp only [toDigitsBE, h0, if_false, List.length_append, List.length_cons,
        List.length_nil]
      omega

/-- Every digit produced by `toDigitsBE` is below the base. -/
theorem toDigitsBE_lt (b : Nat) (hb : 2 ≤ b) :
    ∀ (fuel n : Nat), ∀ d ∈ toDigitsBE b fuel n, d < b := by
  intro fuel
  induction fuel with
  | zero => intro n d hd; simp [toDigitsBE] at hd
  | succ f ih =>
    intro n d hd
    by_cases h0 : n = 0
    · simp [toDigitsBE, h0] at hd
    · simp only [toDigitsBE, h0, if_false, List.mem_append, List.mem_singleton] at hd
      rcases hd with h | h
      · exact ih _ d h
      · subst h
        exact Nat.mod_lt _ (by omega)

theorem hexCharVal_hexDigitChar (d : Nat) (hd : d < 16) :
    hexCharVal (hexDigitChar d) = d := by
  interval_cases d <;> decide

theorem isHexChar_hexDigitChar (d : Nat) (hd : d < 16) :
    isHexChar (hexDigitChar d) = true := by
  interval_cases d <;> decide

theorem decCharVal_decDigitChar (d : Nat) (hd : d < 10) :
    decCharVal (decDigitChar d) = d := by
  interval_cases d <;> decide

theorem self_lt_base_pow_self (b n : Nat) (hb : 2 ≤ b) : n < b ^ n := by
  calc n < 2 ^ n := Nat.lt_two_pow n
  _ ≤ b ^ n := Nat.pow_le_pow_left hb n

/-- Folding over rendered digit characters equals folding over the digits,
provided the character valuation inverts the renderer on every digit. -/
theorem foldl_map_digitChars (b : Nat) (r : Nat → Char) (v : Char → Nat) :
    ∀ (ds : List Nat), (∀ d ∈ ds, v (r d) = d) → ∀ (a : Nat),
      (ds.map r).foldl (fun x c => b * x + v c) a = ds.foldl (fun x d => b * x + d) a := by
  intro ds
  induction ds with
  | nil => intro _ a; rfl
  | cons d ds ih =>
    intro h a
    simp only [List.map_cons, List.foldl_cons, h d (by simp)]
    exact ih (fun e he => h e (by simp [he])) _

/-- Decimal print/parse round trip. -/
theorem decParse_decString (n : Nat) : decParse (decString n) = n := by
  by_cases h0 : n = 0
  · subst h0; decide
  · simp only [decString, h0, if_false, decParse]
    rw [foldl_map_digitChars 10 decDigitChar decCharVal _
      (fun d hd => decCharVal_decDigitChar d (toDigitsBE_lt 10 (by norm_num) n n d hd))]
    exact ofDigitsBE_toDigitsBE 10 (by norm_num) n n
      (self_lt_base_pow_self 10 n (by norm_num))

namespace Word256

theorem eq_of_value_eq : ∀ {a b : Word256}, a.value = b.value → a = b := by
  rintro ⟨a, ha⟩ ⟨b, hb⟩ h
  simp only at h
  subst h
  rfl

theorem ofNat_value (n : Nat) : (ofNat n).value = n % 2 ^ 256 := rfl

theorem ofNat_value_self (w : Word256) : ofNat w.value = w :=
  eq_of_value_eq (by rw [ofNat_value, Nat.mod_eq_of_lt w.isLt])

end Word256

theorem stripHexPrefix_of_all_hex (l : List Char) (h : l.all isHexChar = true) :
    stripHexPrefix l = l := by
  unfold stripHexPrefix
  split
  · rename_i rest
    have hx : isHexChar 'x' = false := by decide
    simp [List.all_cons, hx] at h
  · rfl

theorem foldl_hex_zeros (k : Nat) :
    (List.replicate k '0').foldl (fun a c => 16 * a + hexCharVal c) 0 = 0 := by
  induction k with
  | zero => rfl
  | succ n ih =>
    rw [List.replicate_succ, List.foldl_cons]
    have h0 : 16 * 0 + hexCharVal '0' = 0 := by decide
    rw [h0, ih]

theorem word_raw_hex_length (w : Word256) :
    ((toDigitsBE 16 w.value w.value).map hexDigitChar).length ≤ 64 := by
  rw [List.length_map]
  exact toDigitsBE_length_le 16 (by norm_num) w.value w.value 64
    (lt_of_lt_of_le w.isLt (by norm_num))

theorem word_toHex_data (w : Word256) :
    w.toHex.data =
      List.replicate (64 - (toDigitsBE 16 w.value w.value).length) '0'
        ++ (toDigitsBE 16 w.value w.value).map hexDigitChar := by
  have hlen := word_raw_hex_length w
  rw [List.length_map] at hlen
  unfold Word256.toHex
  simp only [List.length_map]
  by_cases h : 64 ≤ (toDigitsBE 16 w.value w.value).length
  · have h64 : (toDigitsBE 16 w.value w.value).length = 64 := by omega
    simp [h, h64]
  · simp [h]

theorem word_raw_hex_all (w : Word256) :
    ((toDigitsBE 16 w.value w.value).map hexDigitChar).all isHexChar = true := by
  rw [List.all_eq_true]
  intro c hc
  rw [List.mem_map] at hc
  obtain ⟨d, hd, rfl⟩ := hc
  exact isHexChar_hexDigitChar d (toDigitsBE_lt 16 (by norm_num) w.value w.value d hd)

theorem word_toHex_all (w : Word256) : w.toHex.data.all isHexChar = true := by
  rw [word_toHex_data, List.all_append, Bool.and_eq_true]
  refine ⟨?_, word_raw_hex_all w⟩
  rw [List.all_eq_true]
  intro c hc
  rw [List.mem_replicate] at hc
  rw [hc.2]
  decide

theorem word_fromHex_toHex (w : Word256) : Word256.fromHex w.toHex = .ok w := by
  unfold Word256.fromHex
  rw [stripHexPrefix_of_all_hex _ (word_toHex_all w), word_toHex_data w]
  have hall : (List.replicate (64 - (toDigitsBE 16 w.value w.value).length)
      '0' ++ (toDigitsBE 16 w.value w.value).map hexDigitChar).all isHexChar = true := by
    have h := word_toHex_all w
    rwa [word_toHex_data w] at h
  rw [hall]
  simp only [if_true]
  rw [List.foldl_append, foldl_hex_zeros]
  rw [foldl_map_digitChars 16 hexDigitChar hexCharVal _
    (fun d hd => hexCharVal_hexDigitChar d (toDigitsBE_lt 16 (by norm_num) w.value w.value d hd))]
  rw [show ((toDigitsBE 16 w.value w.value).foldl (fun x d => 16 * x + d) 0)
      = ofDigitsBE 16 (toDigitsBE 16 w.value w.value) from rfl]
  rw [ofDigitsBE_toDigitsBE 16 (by norm_num) w.value w.value
    (self_lt_base_pow_self 16 w.value (by norm_num))]
  rw [Word256.ofNat_value_self]

theorem foldl_bytesBE (n : Nat) : ∀ (a v : Nat),
    ((List.range n).map fun i => v / 256 ^ (n - 1 - i) % 256).foldl
      (fun x b => x * 256 + b) a = a * 256 ^ n + v % 256 ^ n := by
  induction n with
  | zero => intro a v; simp [Nat.mod_one]
  | succ m ih =>
    intro a v
    rw [List.range_succ_eq_map, List.map_cons, List.map_map, List.foldl_cons]
    have hcomp : ((fun i => v / 256 ^ (m + 1 - 1 - i) % 256) ∘ Nat.succ)
        = fun i => v / 256 ^ (m - 1 - i) % 256 := by
      funext i
      have he : m + 1 - 1 - Nat.succ i = m - 1 - i := by omega
      simp only [Function.comp_apply, he]
    rw [hcomp, ih]
    have h0 : m + 1 - 1 - 0 = m := by omega
    rw [h0, pow_succ, Nat.mod_mul]
    ring

theorem word_fromBytes_toBytes (w : Word256) : Word256.fromBytes w.toBytes = .ok w := by
  unfold Word256.fromBytes Word256.toBytes
  have hlen : ((List.range 32).map fun i => w.value / 256 ^ (31 - i) % 256).length = 32 := by
    simp
  rw [if_neg (by omega)]
  have h := foldl_bytesBE 32 0 w.value
  have h31 : ∀ i : Nat, 32 - 1 - i = 31 - i := by omega
  rw [show ((List.range 32).map fun i => w.value / 256 ^ (31 - i) % 256)
      = ((List.range 32).map fun i => w.value / 256 ^ (32 - 1 - i) % 256) from by
    apply List.map_congr_left; intro i _; rw [h31 i]]
  rw [h, zero_mul, zero_add]
  rw [Nat.mod_eq_of_lt (lt_of_lt_of_le w.isLt (by norm_num))]
  rw [Word256.ofNat_value_self]

theorem word_toBytes_length (w : Word256) : w.toBytes.length = 32 := by
  simp [Word256.toBytes]

theorem word_toBytes_lt (w : Word256) : ∀ b ∈ w.toBytes, b < 256 := by
  intro b hb
  simp only [Word256.toBytes, List.mem_map] at hb
  obtain ⟨i, _, rfl⟩ := hb
  exact Nat.mod_lt _ (by norm_num)

theorem word_toHex_length (w : Word256) : w.toHex.length = 64 := by
  have hlen := word_raw_hex_length w
  rw [List.length_map] at hlen
  rw [show w.toHex.length = w.toHex.data.length from rfl, word_toHex_data w]
  simp only [List.length_append, List.length_replicate, List.length_map]
  omega

/-! ## Combinator characterizations -/

theorem bindE_ok (a : α) (f : α → Except ε β) : bindE (.ok a) f = f a := rfl

theorem bindE_error (e : ε) (f : α → Except ε β) : bindE (.error e) f = .error e := rfl

theorem bindE2_ok (a : α) (b : β) (f : α → β → Except ε γ) :
    bindE2 (.ok (a, b)) f = f a b := rfl

theorem bindE2_error (e : ε) (f : α → β → Except ε γ) : bindE2 (.error e) f = .error e := rfl

theorem liftStackErr_ok (it : Interp σ) (a : α) :
    liftStackErr it (.ok a) = .ok a := rfl

theorem liftStackErr_error (it : Interp σ) (e : VmError) :
    liftStackErr it (.error e : Except VmError α) = .error (e, it) := rfl

theorem catchStep_ok (it : Interp σ) : catchStep (.ok it) = .ok it := rfl

theorem chargeAndRecord_of_le (it : Interp σ) (amt : Nat) (r : String)
    (h : amt ≤ it.state.gasRemaining) :
    it.chargeAndRecord amt r = .ok { it with
      state := { it.state with gasRemaining := it.state.gasRemaining - amt },
      trace := ⟨it.trace.events ++
        [.gasCharge it.trace.nextIndex it.state.pc (it.state.gasRemaining - amt)
          (decString amt) r], it.trace.nextIndex + 1⟩ } := by
  unfold Interp.chargeAndRecord Interp.chargeGas MachineState.chargeGas
  rw [if_neg (by omega)]
  rfl

theorem chargeAndRecord_of_lt (it : Interp σ) (amt : Nat) (r : String)
    (h : it.state.gasRemaining < amt) :
    it.chargeAndRecord amt r = .error (.outOfGas, { it with state := it.state.halt .OUT_OF_GAS }) := by
  unfold Interp.chargeAndRecord Interp.chargeGas MachineState.chargeGas
  rw [if_pos h]

theorem popRecord_cons (it : Interp σ) (w : Word256) (rest : List Word256)
    (h : it.stack = w :: rest) :
    it.popRecord = .ok (w, { it with
      stack := rest,
      trace := ⟨it.trace.events ++
        [.stackPop it.trace.nextIndex it.state.pc it.state.gasRemaining w.toHexWith0x],
        it.trace.nextIndex + 1⟩ }) := by
  unfold Interp.popRecord stackPopRaw
  rw [h]
  rfl

theorem popRecord_nil (it : Interp σ) (h : it.stack = []) :
    it.popRecord = .error (.stackUnderflow, it) := by
  unfold Interp.popRecord stackPopRaw
  rw [h]

theorem pushRecord_of_lt (it : Interp σ) (w : Word256) (h : it.stack.length < MAX_STACK_DEPTH) :
    it.pushRecord w = .ok { it with
      stack := w :: it.stack,
      trace := ⟨it.trace.events ++
        [.stackPush it.trace.nextIndex it.state.pc it.state.gasRemaining w.toHexWith0x],
        it.trace.nextIndex + 1⟩ } := by
  unfold Interp.pushRecord stackPushRaw
  rw [if_neg (by omega)]
  rfl

theorem pushRecord_of_full (it : Interp σ) (w : Word256) (h : MAX_STACK_DEPTH ≤ it.stack.length) :
    it.pushRecord w = .error (.stackOverflow, it) := by
  unfold Interp.pushRecord stackPushRaw
  rw [if_pos h]

/-! ## Frame preservation machinery (C2, C10)

`resState r` is the instance a handler leaves behind in either outcome;
`frameG` collects the observables every canonical handler preserves
(the unused `MachineState.stack`, the total charged gas plus the gas
remaining, and the bytecode).  `resState_bindE` chains preservation
through the exception-propagating sequencing. -/

theorem gasChargeTotal_append (es : List TraceEvent) (e : TraceEvent) :
    gasChargeTotal (es ++ [e]) = gasChargeTotal es + gasAmt e := by
  induction es with
  | nil => simp [gasChargeTotal]
  | cons x xs ih =>
    simp only [List.cons_append, gasChargeTotal, List.foldr_cons] at *
    omega

theorem resState_bindE (g : Interp σ → α) (v : α) (x : HRes σ) (f : Interp σ → HRes σ)
    (hx : g (resState x) = v) (hf : ∀ a, g a = v → g (resState (f a)) = v) :
    g (resState (bindE x f)) = v := by
  cases x with
  | error e => simpa [bindE, resState] using hx
  | ok a => exact hf a (by simpa [resState] using hx)

theorem resState_bindE2 (g : Interp σ → α) (v : α)
    (x : Except (VmError × Interp σ) (β × Interp σ)) (f : β → Interp σ → HRes σ)
    (hx : g (resState2 x) = v) (hf : ∀ b a, g a = v → g (resState (f b a)) = v) :
    g (resState (bindE2 x f)) = v := by
  cases x with
  | error e => simpa [bindE2, resState, resState2] using hx
  | ok p => exact hf p.1 p.2 (by simpa [resState2] using hx)

theorem resState_bindE_lift (g : Interp σ → α) (v : α) (it : Interp σ)
    (x : Except VmError β) (f : β → HRes σ)
    (hit : g it = v) (hf : ∀ b, g (resState (f b)) = v) :
    g (resState (bindE (liftStackErr it x) f)) = v := by
  cases x with
  | error e => simpa [liftStackErr, bindE, resState] using hit
  | ok b => exact hf b

theorem expandMemory_gas (s : MachineState) (o l : Nat) :
    (s.expandMemory o l).2.gasRemaining = s.gasRemaining := by
  unfold MachineState.expandMemory
  by_cases h : l = 0
  · simp [h]
  · simp only [h, if_false]
    by_cases h2 : o + l ≤ s.memory.length <;> simp [h2]

theorem expandMemory_msStack (s : MachineState) (o l : Nat) :
    (s.expandMemory o l).2.stack = s.stack := by
  unfold MachineState.expandMemory
  by_cases h : l = 0
  · simp [h]
  · simp only [h, if_false]
    by_cases h2 : o + l ≤ s.memory.length <;> simp [h2]

theorem readMemory_gas (s : MachineState) (o l : Nat) :
    (s.readMemory o l).2.gasRemaining = s.gasRemaining := by
  unfold MachineState.readMemory
  by_cases h : l = 0
  · simp [h]
  · simp only [h, if_false]
    by_cases h2 : s.memory.length < o + l <;> simp [h2, expandMemory_gas]

theorem readMemory_msStack (s : MachineState) (o l : Nat) :
    (s.readMemory o l).2.stack = s.stack := by
  unfold MachineState.readMemory
  by_cases h : l = 0
  · simp [h]
  · simp only [h, if_false]
    by_cases h2 : s.memory.length < o + l <;> simp [h2, expandMemory_msStack]

theorem writeMemory_gas (s : MachineState) (o : Nat) (d : List Nat) :
    (s.writeMemory o d).gasRemaining = s.gasRemaining := by
  unfold MachineState.writeMemory
  by_cases h : d.length = 0
  · simp [h]
  · simp only [h, if_false]
    by_cases h2 : s.memory.length < o + d.length <;> simp [h2, expandMemory_gas]

theorem writeMemory_msStack (s : MachineState) (o : Nat) (d : List Nat) :
    (s.writeMemory o d).stack = s.stack := by
  unfold MachineState.writeMemory
  by_cases h : d.length = 0
  · simp [h]
  · simp only [h, if_false]
    by_cases h2 : s.memory.length < o + d.length <;> simp [h2, expandMemory_msStack]

theorem frameG_record_mk (it : Interp σ) (mk : Nat → TraceEvent)
    (h : ∀ i, gasAmt (mk i) = 0) :
    frameG (it.record mk) = frameG it := by
  simp [Interp.record, frameG, TraceCollector.getNextIndex, TraceCollector.record,
    gasChargeTotal_append, h]

theorem frameG_record_stackPush (it : Interp σ) (pc g : Nat) (v : Word256) :
    frameG (it.record fun i => TraceEventBuilder.stackPush i pc g v) = frameG it := by
  apply frameG_record_mk
  intro i
  rfl

theorem frameG_record_memoryWrite (it : Interp σ) (pc g off : Nat) (d : List Nat) :
    frameG (it.record fun i => TraceEventBuilder.memoryWrite i pc g off d) = frameG it := by
  apply frameG_record_mk
  intro i
  rfl

theorem frameG_record_memoryRead (it : Interp σ) (pc g off len : Nat) :
    frameG (it.record fun i => TraceEventBuilder.memoryRead i pc g off len) = frameG it := by
  apply frameG_record_mk
  intro i
  rfl

theorem frameG_record_jump (it : Interp σ) (pc g s d : Nat) (c t : Bool) :
    frameG (it.record fun i => TraceEventBuilder.jump i pc g s d c t) = frameG it := by
  apply frameG_record_mk
  intro i
  rfl

theorem frameG_chargeAndRecord (it : Interp σ) (amt : Nat) (r : String) :
    frameG (resState (it.chargeAndRecord amt r)) = frameG it := by
  by_cases h : it.state.gasRemaining < amt
  · rw [chargeAndRecord_of_lt it amt r h]
    simp [resState, frameG, MachineState.halt]
  · rw [chargeAndRecord_of_le it amt r (by omega)]
    simp only [resState, frameG, gasChargeTotal_append, gasAmt, decParse_decString]
    rw [show gasChargeTotal it.trace.events + amt + (it.state.gasRemaining - amt)
      = gasChargeTotal it.trace.events + it.state.gasRemaining from by omega]

theorem frameG_popRecord (it : Interp σ) :
    frameG (resState2 it.popRecord) = frameG it := by
  cases h : it.stack with
  | nil => rw [popRecord_nil it h]; simp [resState2]
  | cons w rest =>
    rw [popRecord_cons it w rest h]
    simp [resState2, frameG, gasChargeTotal_append, gasAmt]

theorem frameG_pushRecord (it : Interp σ) (w : Word256) :
    frameG (resState (it.pushRecord w)) = frameG it := by
  by_cases h : MAX_STACK_DEPTH ≤ it.stack.length
  · rw [pushRecord_of_full it w h]; simp [resState]
  · rw [pushRecord_of_lt it w (by omega)]
    simp [resState, frameG, gasChargeTotal_append, gasAmt]

theorem frameG_advancePC (it : Interp σ) (k : Nat) :
    frameG (it.advancePC k) = frameG it := by
  simp [frameG, Interp.advancePC]

theorem frameG_haltWith (it : Interp σ) (r : HaltReason) :
    frameG (it.haltWith r) = frameG it := by
  simp [frameG, Interp.haltWith, MachineState.halt]

theorem frameG_setState_expandMemory (it : Interp σ) (o l : Nat) :
    frameG (it.setState (it.state.expandMemory o l).2) = frameG it := by
  simp only [frameG, Interp.setState]
  rw [expandMemory_gas, expandMemory_msStack]

theorem frameG_setState_writeMemory (it : Interp σ) (o : Nat) (d : List Nat) :
    frameG (it.setState (it.state.writeMemory o d)) = frameG it := by
  simp only [frameG, Interp.setState]
  rw [writeMemory_gas, writeMemory_msStack]

theorem frameG_setState_readMemory (it : Interp σ) (o l : Nat) :
    frameG (it.setState (it.state.readMemory o l).2) = frameG it := by
  simp only [frameG, Interp.setState]
  rw [readMemory_gas, readMemory_msStack]

theorem frameG_setState_readMemory_returnData (it : Interp σ) (o l : Nat) :
    frameG (it.setState { (it.state.readMemory o l).2 with
      returnData := (it.state.readMemory o l).1 }) = frameG it := by
  simp only [frameG, Interp.setState]
  rw [show ({ (it.state.readMemory o l).2 with
      returnData := (it.state.readMemory o l).1 } : MachineState).gasRemaining
    = (it.state.readMemory o l).2.gasRemaining from rfl]
  rw [show ({ (it.state.readMemory o l).2 with
      returnData := (it.state.readMemory o l).1 } : MachineState).stack
    = (it.state.readMemory o l).2.stack from rfl]
  rw [readMemory_gas, readMemory_msStack]

/-! ### Per-handler frame preservation -/

theorem frameG_binArith (cost : Nat) (reason : String) (f : Word256 → Word256 → Word256)
    (it : Interp σ) :
    frameG (resState (binArith cost reason f it)) = frameG it := by
  unfold binArith
  refine resState_bindE _ _ _ _ (frameG_chargeAndRecord it cost reason) (fun a ha => ?_)
  refine resState_bindE2 _ _ _ _ ((frameG_popRecord a).trans ha) (fun b a2 h2 => ?_)
  refine resState_bindE2 _ _ _ _ ((frameG_popRecord a2).trans h2) (fun c a3 h3 => ?_)
  refine resState_bindE _ _ _ _ ((frameG_pushRecord a3 (f c b)).trans h3) (fun a4 h4 => ?_)
  exact (frameG_advancePC a4 1).trans h4

theorem frameG_executeStop (it : Interp σ) :
    frameG (resState (executeStop it)) = frameG it :=
  frameG_haltWith it .STOP

theorem frameG_executePOP (it : Interp σ) :
    frameG (resState (executePOP it)) = frameG it := by
  unfold executePOP
  refine resState_bindE _ _ _ _ (frameG_chargeAndRecord it 2 "POP") (fun a ha => ?_)
  refine resState_bindE2 _ _ _ _ ((frameG_popRecord a).trans ha) (fun b a2 h2 => ?_)
  exact (frameG_advancePC a2 1).trans h2

theorem frameG_executeDUP (opcode : Nat) (it : Interp σ) :
    frameG (resState (executeDUP opcode it)) = frameG it := by
  unfold executeDUP
  refine resState_bindE _ _ _ _ (frameG_chargeAndRecord it 3 _) (fun a ha => ?_)
  refine resState_bindE_lift _ _ _ _ _ ha (fun value => ?_)
  refine resState_bindE_lift _ _ _ _ _ ha (fun items => ?_)
  exact (frameG_advancePC _ 1).trans ((frameG_record_stackPush _ _ _ _).trans ha)

theorem frameG_executeSWAP (opcode : Nat) (it : Interp σ) :
    frameG (resState (executeSWAP opcode it)) = frameG it := by
  unfold executeSWAP
  refine resState_bindE _ _ _ _ (frameG_chargeAndRecord it 3 _) (fun a ha => ?_)
  refine resState_bindE_lift _ _ _ _ _ ha (fun items => ?_)
  exact (frameG_advancePC _ 1).trans ha

theorem frameG_executeMLOAD (it : Interp σ) :
    frameG (resState (executeMLOAD it)) = frameG it := by
  unfold executeMLOAD
  refine resState_bindE _ _ _ _ (frameG_chargeAndRecord it 3 "MLOAD") (fun a ha => ?_)
  refine resState_bindE2 _ _ _ _ ((frameG_popRecord a).trans ha) (fun b a2 h2 => ?_)
  refine resState_bindE _ _ _ _ ?_ (fun a4 h4 => ?_)
  · split
    · exact (frameG_chargeAndRecord _ _ _).trans
        ((frameG_setState_expandMemory a2 b.value 32).trans h2)
    · exact (frameG_setState_expandMemory a2 b.value 32).trans h2
  · refine resState_bindE _ _ _ _
      ((frameG_pushRecord _ _).trans ((frameG_record_memoryRead _ _ _ _ _).trans
        ((frameG_setState_readMemory a4 b.value 32).trans h4)))
      (fun a6 h6 => (frameG_advancePC a6 1).trans h6)

theorem frameG_executeMSTORE (it : Interp σ) :
    frameG (resState (executeMSTORE it)) = frameG it := by
  unfold executeMSTORE
  refine resState_bindE _ _ _ _ (frameG_chargeAndRecord it 3 "MSTORE") (fun a ha => ?_)
  refine resState_bindE2 _ _ _ _ ((frameG_popRecord a).trans ha) (fun b a2 h2 => ?_)
  refine resState_bindE2 _ _ _ _ ((frameG_popRecord a2).trans h2) (fun c a3 h3 => ?_)
  refine resState_bindE _ _ _ _ ?_ (fun a5 h5 => ?_)
  · split
    · exact (frameG_chargeAndRecord _ _ _).trans
        ((frameG_setState_expandMemory a3 b.value 32).trans h3)
    · exact (frameG_setState_expandMemory a3 b.value 32).trans h3
  · exact (frameG_advancePC _ 1).trans ((frameG_record_memoryWrite _ _ _ _ _).trans
      ((frameG_setState_writeMemory a5 b.value c.toBytes).trans h5))

theorem frameG_executeMSTORE8 (it : Interp σ) :
    frameG (resState (executeMSTORE8 it)) = frameG it := by
  unfold executeMSTORE8
  refine resState_bindE _ _ _ _ (frameG_chargeAndRecord it 3 "MSTORE8") (fun a ha => ?_)
  refine resState_bindE2 _ _ _ _ ((frameG_popRecord a).trans ha) (fun b a2 h2 => ?_)
  refine resState_bindE2 _ _ _ _ ((frameG_popRecord a2).trans h2) (fun c a3 h3 => ?_)
  refine resState_bindE _ _ _ _ ?_ (fun a5 h5 => ?_)
  · split
    · exact (frameG_chargeAndRecord _ _ _).trans
        ((frameG_setState_expandMemory a3 b.value 1).trans h3)
    · exact (frameG_setState_expandMemory a3 b.value 1).trans h3
  · exact (frameG_advancePC _ 1).trans ((frameG_record_memoryWrite _ _ _ _ _).trans
      ((frameG_setState_writeMemory a5 b.value [c.value % 256]).trans h5))

theorem frameG_executeMSIZE (it : Interp σ) :
    frameG (resState (executeMSIZE it)) = frameG it := by
  unfold executeMSIZE
  refine resState_bindE _ _ _ _ (frameG_chargeAndRecord it 2 "MSIZE") (fun a ha => ?_)
  refine resState_bindE _ _ _ _ ((frameG_pushRecord a _).trans ha)
    (fun a2 h2 => (frameG_advancePC a2 1).trans h2)

theorem frameG_executeCALLDATALOAD (it : Interp σ) :
    frameG (resState (executeCALLDATALOAD it)) = frameG it := by
  unfold executeCALLDATALOAD
  refine resState_bindE _ _ _ _ (frameG_chargeAndRecord it 3 "CALLDATALOAD") (fun a ha => ?_)
  refine resState_bindE2 _ _ _ _ ((frameG_popRecord a).trans ha) (fun b a2 h2 => ?_)
  refine resState_bindE _ _ _ _ ((frameG_pushRecord a2 _).trans h2)
    (fun a3 h3 => (frameG_advancePC a3 1).trans h3)

theorem frameG_executeCALLDATASIZE (it : Interp σ) :
    frameG (resState (executeCALLDATASIZE it)) = frameG it := by
  unfold executeCALLDATASIZE
  refine resState_bindE _ _ _ _ (frameG_chargeAndRecord it 2 "CALLDATASIZE") (fun a ha => ?_)
  refine resState_bindE _ _ _ _ ((frameG_pushRecord a _).trans ha)
    (fun a2 h2 => (frameG_advancePC a2 1).trans h2)

theorem frameG_executeCALLDATACOPY (it : Interp σ) :
    frameG (resState (executeCALLDATACOPY it)) = frameG it := by
  unfold executeCALLDATACOPY
  refine resState_bindE _ _ _ _ (frameG_chargeAndRecord it 3 "CALLDATACOPY") (fun a ha => ?_)
  refine resState_bindE2 _ _ _ _ ((frameG_popRecord a).trans ha) (fun b a2 h2 => ?_)
  refine resState_bindE2 _ _ _ _ ((frameG_popRecord a2).trans h2) (fun c a3 h3 => ?_)
  refine resState_bindE2 _ _ _ _ ((frameG_popRecord a3).trans h3) (fun d a4 h4 => ?_)
  refine resState_bindE _ _ _ _ ?_ (fun a5 h5 => ?_)
  · split
    · exact (frameG_chargeAndRecord _ _ _).trans h4
    · exact h4
  · refine resState_bindE _ _ _ _ ?_ (fun a7 h7 => ?_)
    · split
      · simp only []
        split
        · exact (frameG_chargeAndRecord _ _ _).trans
            ((frameG_setState_expandMemory a5 b.value d.value).trans h5)
        · exact (frameG_setState_expandMemory a5 b.value d.value).trans h5
      · exact h5
    · split
      · exact (frameG_advancePC _ 1).trans ((frameG_record_memoryWrite _ _ _ _ _).trans
          ((frameG_setState_writeMemory a7 b.value _).trans h7))
      · exact (frameG_advancePC a7 1).trans h7

theorem frameG_returnLike (reason : HaltReason) (it : Interp σ) :
    frameG (resState (returnLike reason it)) = frameG it := by
  unfold returnLike
  refine resState_bindE2 _ _ _ _ (frameG_popRecord it) (fun b a1 h1 => ?_)
  refine resState_bindE2 _ _ _ _ ((frameG_popRecord a1).trans h1) (fun c a2 h2 => ?_)
  simp only []
  split
  · refine resState_bindE _ _ _ _ ?_ (fun a4 h4 => ?_)
    · split
      · exact (frameG_chargeAndRecord _ _ _).trans
          ((frameG_setState_expandMemory a2 b.value c.value).trans h2)
      · exact (frameG_setState_expandMemory a2 b.value c.value).trans h2
    · exact (frameG_haltWith _ reason).trans
        ((frameG_setState_readMemory_returnData a4 b.value c.value).trans h4)
  · refine (frameG_haltWith _ reason).trans ?_
    refine Eq.trans ?_ h2
    simp [frameG, Interp.setState]

theorem frameG_executePC (it : Interp σ) :
    frameG (resState (executePC it)) = frameG it := by
  unfold executePC
  refine resState_bindE _ _ _ _ (frameG_chargeAndRecord it 2 "PC") (fun a ha => ?_)
  refine resState_bindE _ _ _ _ ((frameG_pushRecord a _).trans ha)
    (fun a2 h2 => (frameG_advancePC a2 1).trans h2)

theorem frameG_executeJUMPDEST (it : Interp σ) :
    frameG (resState (executeJUMPDEST it)) = frameG it := by
  unfold executeJUMPDEST
  refine resState_bindE _ _ _ _ (frameG_chargeAndRecord it 1 "JUMPDEST")
    (fun a ha => (frameG_advancePC a 1).trans ha)

theorem frameG_executeJUMP (it : Interp σ) :
    frameG (resState (executeJUMP it)) = frameG it := by
  unfold executeJUMP
  refine resState_bindE _ _ _ _ (frameG_chargeAndRecord it 8 "JUMP") (fun a ha => ?_)
  refine resState_bindE2 _ _ _ _ ((frameG_popRecord a).trans ha) (fun b a2 h2 => ?_)
  simp only []
  split
  · exact (frameG_haltWith _ _).trans ((frameG_record_jump _ _ _ _ _ _ _).trans h2)
  · split
    · exact (frameG_haltWith _ _).trans ((frameG_record_jump _ _ _ _ _ _ _).trans h2)
    · refine Eq.trans ?_ ((frameG_record_jump a2 a2.state.pc a2.state.gasRemaining
        a2.state.pc b.value false true).trans h2)
      simp [resState, frameG, Interp.setState, Interp.record, TraceCollector.record,
        TraceCollector.getNextIndex, gasChargeTotal_append, gasAmt]

theorem frameG_executeJUMPI (it : Interp σ) :
    frameG (resState (executeJUMPI it)) = frameG it := by
  unfold executeJUMPI
  refine resState_bindE _ _ _ _ (frameG_chargeAndRecord it 10 "JUMPI") (fun a ha => ?_)
  refine resState_bindE2 _ _ _ _ ((frameG_popRecord a).trans ha) (fun b a2 h2 => ?_)
  refine resState_bindE2 _ _ _ _ ((frameG_popRecord a2).trans h2) (fun c a3 h3 => ?_)
  simp only []
  split
  · exact (frameG_advancePC _ 1).trans ((frameG_record_jump _ _ _ _ _ _ _).trans h3)
  · split
    · exact (frameG_haltWith _ _).trans ((frameG_record_jump _ _ _ _ _ _ _).trans h3)
    · split
      · exact (frameG_haltWith _ _).trans ((frameG_record_jump _ _ _ _ _ _ _).trans h3)
      · refine Eq.trans ?_ ((frameG_record_jump a3 a3.state.pc a3.state.gasRemaining
          a3.state.pc c.value true (decide (b.value ≠ 0))).trans h3)
        simp [resState, frameG, Interp.setState, Interp.record, TraceCollector.record,
          TraceCollector.getNextIndex, gasChargeTotal_append, gasAmt]

theorem frameG_executePush (opcode : Nat) (it : Interp σ) :
    frameG (resState (executePush opcode it)) = frameG it := by
  unfold executePush
  refine resState_bindE _ _ _ _ (frameG_chargeAndRecord it 3 _) (fun a ha => ?_)
  refine resState_bindE _ _ _ _ ((frameG_pushRecord a _).trans ha)
    (fun a2 h2 => (frameG_advancePC a2 _).trans h2)

/-! ## Bare gas charge characterizations -/

theorem chargeGas_of_le (it : Interp σ) (amt : Nat) (h : amt ≤ it.state.gasRemaining) :
    it.chargeGas amt = .ok { it with
      state := { it.state with gasRemaining := it.state.gasRemaining - amt } } := by
  unfold Interp.chargeGas MachineState.chargeGas
  rw [if_neg (by omega)]

theorem chargeGas_of_lt (it : Interp σ) (amt : Nat) (h : it.state.gasRemaining < amt) :
    it.chargeGas amt
      = .error (.outOfGas, { it with state := it.state.halt .OUT_OF_GAS }) := by
  unfold Interp.chargeGas MachineState.chargeGas
  rw [if_pos h]

/-! ## MachineState.stack frame machinery (C10) -/

theorem frameS_haltWith (it : Interp σ) (r : HaltReason) :
    frameS (it.haltWith r) = frameS it := rfl

theorem frameS_record_mk (it : Interp σ) (mk : Nat → TraceEvent) :
    frameS (it.record mk) = frameS it := rfl

theorem frameS_advancePC (it : Interp σ) (k : Nat) :
    frameS (it.advancePC k) = frameS it := rfl

theorem frameS_chargeGas (it : Interp σ) (amt : Nat) :
    frameS (resState (it.chargeGas amt)) = frameS it := by
  by_cases h : it.state.gasRemaining < amt
  · rw [chargeGas_of_lt it amt h]; rfl
  · rw [chargeGas_of_le it amt (by omega)]; rfl

theorem frameS_popBare (it : Interp σ) :
    frameS (resState2 it.popBare) = frameS it := by
  unfold Interp.popBare stackPopRaw
  rcases hs : it.stack with _ | ⟨w, rest⟩ <;> simp [hs, resState2, frameS]

theorem frameS_pushBare (it : Interp σ) (w : Word256) :
    frameS (resState (it.pushBare w)) = frameS it := by
  unfold Interp.pushBare stackPushRaw
  by_cases h : MAX_STACK_DEPTH ≤ it.stack.length <;> simp [h, resState, frameS]

theorem resState2_bindE (g : Interp σ → α) (v : α) (x : HRes σ)
    (f : Interp σ → Except (VmError × Interp σ) (β × Interp σ))
    (hx : g (resState x) = v) (hf : ∀ a, g a = v → g (resState2 (f a)) = v) :
    g (resState2 (bindE x f)) = v := by
  cases x with
  | error e => simpa [bindE, resState, resState2] using hx
  | ok a => exact hf a (by simpa [resState] using hx)

theorem resState2_bindE2 (g : Interp σ → α) (v : α)
    (x : Except (VmError × Interp σ) (β × Interp σ))
    (f : β → Interp σ → Except (VmError × Interp σ) (γ × Interp σ))
    (hx : g (resState2 x) = v) (hf : ∀ b a, g a = v → g (resState2 (f b a)) = v) :
    g (resState2 (bindE2 x f)) = v := by
  cases x with
  | error e => simpa [bindE2, resState2] using hx
  | ok p => exact hf p.1 p.2 (by simpa [resState2] using hx)

theorem frameS_of_frameG {σ : Type} {x : HRes σ} {it : Interp σ}
    (h : frameG (resState x) = frameG it) : frameS (resState x) = frameS it :=
  congrArg (fun p => (p.1, p.2.2)) h

theorem frameS_popBareN (n : Nat) : ∀ (it : Interp σ),
    frameS (resState2 (popBareN n it)) = frameS it := by
  induction n with
  | zero => intro it; rfl
  | succ k ih =>
    intro it
    unfold popBareN
    refine resState2_bindE2 _ _ _ _ (frameS_popBare it) (fun w a1 h1 => ?_)
    refine resState2_bindE2 _ _ _ _ ((ih a1).trans h1) (fun ws a2 h2 => ?_)
    simpa [resState2] using h2

theorem frameS_executeSLOAD (H : Host σ) (it : Interp σ) :
    frameS (resState (executeSLOAD H it)) = frameS it := by
  unfold executeSLOAD
  refine resState_bindE _ _ _ _ (frameS_chargeGas it 200) (fun a ha => ?_)
  refine resState_bindE2 _ _ _ _ ((frameS_popBare a).trans ha) (fun k a2 h2 => ?_)
  refine resState_bindE _ _ _ _
    ((frameS_pushBare _ _).trans ((frameS_record_mk _ _).trans h2))
    (fun a4 h4 => (frameS_advancePC a4 1).trans h4)

theorem frameS_executeSSTORE (H : Host σ) (it : Interp σ) :
    frameS (resState (executeSSTORE H it)) = frameS it := by
  unfold executeSSTORE
  refine resState_bindE2 _ _ _ _ (frameS_popBare it) (fun k a1 h1 => ?_)
  refine resState_bindE2 _ _ _ _ ((frameS_popBare a1).trans h1) (fun w a2 h2 => ?_)
  refine resState_bindE _ _ _ _ ((frameS_chargeGas a2 _).trans h2) (fun a3 h3 => ?_)
  simpa [resState, frameS, Interp.record, Interp.advancePC] using h3

theorem frameS_executeLOGn (H : Host σ) (n : Nat) (it : Interp σ) :
    frameS (resState (executeLOGn H n it)) = frameS it := by
  unfold executeLOGn
  refine resState_bindE2 _ _ _ _ (frameS_popBare it) (fun ow a1 h1 => ?_)
  refine resState_bindE2 _ _ _ _ ((frameS_popBare a1).trans h1) (fun lw a2 h2 => ?_)
  refine resState_bindE2 _ _ _ _ ((frameS_popBareN n a2).trans h2) (fun ts a3 h3 => ?_)
  have hset : frameS (a3.setState (a3.state.expandMemory ow.value lw.value).2)
      = frameS it := by
    simp only [frameS, Interp.setState]
    rw [expandMemory_msStack]
    simpa [frameS] using h3
  refine resState_bindE _ _ _ _ ((frameS_chargeGas _ _).trans hset) (fun a5 h5 => ?_)
  simpa [resState, frameS, Interp.setState, readMemory_msStack] using h5

/-! ## Dispatch-level frame preservation -/

theorem frameG_invalidDefault (it : Interp σ) :
    frameG (resState (.ok (it.haltWith .INVALID_OPCODE) : HRes σ)) = frameG it :=
  frameG_haltWith it .INVALID_OPCODE

set_option maxHeartbeats 1000000 in
/-- Every handler, metered or not, leaves `MachineState.stack` (and the
bytecode) untouched in every outcome. -/
theorem frameS_executeOpcode (H : Host σ) (opcode : Nat) (it : Interp σ) :
    frameS (resState (executeOpcode H opcode it)) = frameS it := by
  unfold executeOpcode
  by_cases h1 : isPushOpcode opcode = true
  · rw [if_pos h1]
    exact frameS_of_frameG (frameG_executePush _ _)
  rw [if_neg h1]
  by_cases h2 : 0x80 ≤ opcode ∧ opcode ≤ 0x8f
  · rw [if_pos h2]
    exact frameS_of_frameG (frameG_executeDUP _ _)
  rw [if_neg h2]
  by_cases h3 : 0x90 ≤ opcode ∧ opcode ≤ 0x9f
  · rw [if_pos h3]
    exact frameS_of_frameG (frameG_executeSWAP _ _)
  rw [if_neg h3]
  by_cases h4 : opcode = 0x00
  · rw [if_pos h4]
    exact frameS_of_frameG (frameG_executeStop _)
  rw [if_neg h4]
  by_cases h5 : opcode = 0x01
  · rw [if_pos h5]
    exact frameS_of_frameG (frameG_binArith _ _ _ _)
  rw [if_neg h5]
  by_cases h6 : opcode = 0x02
  · rw [if_pos h6]
    exact frameS_of_frameG (frameG_binArith _ _ _ _)
  rw [if_neg h6]
  by_cases h7 : opcode = 0x03
  · rw [if_pos h7]
    exact frameS_of_frameG (frameG_binArith _ _ _ _)
  rw [if_neg h7]
  by_cases h8 : opcode = 0x04
  · rw [if_pos h8]
    exact frameS_of_frameG (frameG_binArith _ _ _ _)
  rw [if_neg h8]
  by_cases h9 : opcode = 0x50
  · rw [if_pos h9]
    exact frameS_of_frameG (frameG_executePOP _)
  rw [if_neg h9]
  by_cases h10 : opcode = 0x51
  · rw [if_pos h10]
    exact frameS_of_frameG (frameG_executeMLOAD _)
  rw [if_neg h10]
  by_cases h11 : opcode = 0x52
  · rw [if_pos h11]
    exact frameS_of_frameG (frameG_executeMSTORE _)
  rw [if_neg h11]
  by_cases h12 : opcode = 0x53
  · rw [if_pos h12]
    exact frameS_of_frameG (frameG_executeMSTORE8 _)
  rw [if_neg h12]
  by_cases h13 : opcode = 0x59
  · rw [if_pos h13]
    exact frameS_of_frameG (frameG_executeMSIZE _)
  rw [if_neg h13]
  by_cases h14 : opcode = 0x35
  · rw [if_pos h14]
    exact frameS_of_frameG (frameG_executeCALLDATALOAD _)
  rw [if_neg h14]
  by_cases h15 : opcode = 0x36
  · rw [if_pos h15]
    exact frameS_of_frameG (frameG_executeCALLDATASIZE _)
  rw [if_neg h15]
  by_cases h16 : opcode = 0x37
  · rw [if_pos h16]
    exact frameS_of_frameG (frameG_executeCALLDATACOPY _)
  rw [if_neg h16]
  by_cases h17 : opcode = 0xf3
  · rw [if_pos h17]
    exact frameS_of_frameG (frameG_returnLike _ _)
  rw [if_neg h17]
  by_cases h18 : opcode = 0xfd
  · rw [if_pos h18]
    exact frameS_of_frameG (frameG_returnLike _ _)
  rw [if_neg h18]
  by_cases h19 : opcode = 0x58
  · rw [if_pos h19]
    exact frameS_of_frameG (frameG_executePC _)
  rw [if_neg h19]
  by_cases h20 : opcode = 0x56
  · rw [if_pos h20]
    exact frameS_of_frameG (frameG_executeJUMP _)
  rw [if_neg h20]
  by_cases h21 : opcode = 0x57
  · rw [if_pos h21]
    exact frameS_of_frameG (frameG_executeJUMPI _)
  rw [if_neg h21]
  by_cases h22 : opcode = 0x5b
  · rw [if_pos h22]
    exact frameS_of_frameG (frameG_executeJUMPDEST _)
  rw [if_neg h22]
  by_cases h23 : opcode = 0x54
  · rw [if_pos h23]
    exact frameS_executeSLOAD _ _
  rw [if_neg h23]
  by_cases h24 : opcode = 0x55
  · rw [if_pos h24]
    exact frameS_executeSSTORE _ _
  rw [if_neg h24]
  by_cases h25 : opcode = 0xa0
  · rw [if_pos h25]
    exact frameS_executeLOGn _ _ _
  rw [if_neg h25]
  by_cases h26 : opcode = 0xa1
  · rw [if_pos h26]
    exact frameS_executeLOGn _ _ _
  rw [if_neg h26]
  by_cases h27 : opcode = 0xa2
  · rw [if_pos h27]
    exact frameS_executeLOGn _ _ _
  rw [if_neg h27]
  by_cases h28 : opcode = 0xa3
  · rw [if_pos h28]
    exact frameS_executeLOGn _ _ _
  rw [if_neg h28]
  by_cases h29 : opcode = 0xa4
  · rw [if_pos h29]
    exact frameS_executeLOGn _ _ _
  rw [if_neg h29]
  exact frameS_of_frameG (frameG_invalidDefault _)

/-- Every handler other than SLOAD, SSTORE and LOG0-LOG4 preserves the
unused `MachineState.stack`, the quantity `total charged + gasRemaining`,
and the bytecode, in every outcome. -/
theorem frameG_executeOpcode (H : Host σ) (opcode : Nat) (it : Interp σ)
    (hop : opcode ∉ unmeteredTraceOpcodes) :
    frameG (resState (executeOpcode H opcode it)) = frameG it := by
  unfold executeOpcode
  by_cases h1 : isPushOpcode opcode = true
  · rw [if_pos h1]
    exact frameG_executePush _ _
  rw [if_neg h1]
  by_cases h2 : 0x80 ≤ opcode ∧ opcode ≤ 0x8f
  · rw [if_pos h2]
    exact frameG_executeDUP _ _
  rw [if_neg h2]
  by_cases h3 : 0x90 ≤ opcode ∧ opcode ≤ 0x9f
  · rw [if_pos h3]
    exact frameG_executeSWAP _ _
  rw [if_neg h3]
  by_cases h4 : opcode = 0x00
  · rw [if_pos h4]
    exact frameG_executeStop _
  rw [if_neg h4]
  by_cases h5 : opcode = 0x01
  · rw [if_pos h5]
    exact frameG_binArith _ _ _ _
  rw [if_neg h5]
  by_cases h6 : opcode = 0x02
  · rw [if_pos h6]
    exact frameG_binArith _ _ _ _
  rw [if_neg h6]
  by_cases h7 : opcode = 0x03
  · rw [if_pos h7]
    exact frameG_binArith _ _ _ _
  rw [if_neg h7]
  by_cases h8 : opcode = 0x04
  · rw [if_pos h8]
    exact frameG_binArith _ _ _ _
  rw [if_neg h8]
  by_cases h9 : opcode = 0x50
  · rw [if_pos h9]
    exact frameG_executePOP _
  rw [if_neg h9]
  by_cases h10 : opcode = 0x51
  · rw [if_pos h10]
    exact frameG_executeMLOAD _
  rw [if_neg h10]
  by_cases h11 : opcode = 0x52
  · rw [if_pos h11]
    exact frameG_executeMSTORE _
  rw [if_neg h11]
  by_cases h12 : opcode = 0x53
  · rw [if_pos h12]
    exact frameG_executeMSTORE8 _
  rw [if_neg h12]
  by_cases h13 : opcode = 0x59
  · rw [if_pos h13]
    exact frameG_executeMSIZE _
  rw [if_neg h13]
  by_cases h14 : opcode = 0x35
  · rw [if_pos h14]
    exact frameG_executeCALLDATALOAD _
  rw [if_neg h14]
  by_cases h15 : opcode = 0x36
  · rw [if_pos h15]
    exact frameG_executeCALLDATASIZE _
  rw [if_neg h15]
  by_cases h16 : opcode = 0x37
  · rw [if_pos h16]
    exact frameG_executeCALLDATACOPY _
  rw [if_neg h16]
  by_cases h17 : opcode = 0xf3
  · rw [if_pos h17]
    exact frameG_returnLike _ _
  rw [if_neg h17]
  by_cases h18 : opcode = 0xfd
  · rw [if_pos h18]
    exact frameG_returnLike _ _
  rw [if_neg h18]
  by_cases h19 : opcode = 0x58
  · rw [if_pos h19]
    exact frameG_executePC _
  rw [if_neg h19]
  by_cases h20 : opcode = 0x56
  · rw [if_pos h20]
    exact frameG_executeJUMP _
  rw [if_neg h20]
  by_cases h21 : opcode = 0x57
  · rw [if_pos h21]
    exact frameG_executeJUMPI _
  rw [if_neg h21]
  by_cases h22 : opcode = 0x5b
  · rw [if_pos h22]
    exact frameG_executeJUMPDEST _
  rw [if_neg h22]
  by_cases h23 : opcode = 0x54
  · rw [if_pos h23]
    exact absurd (by rw [h23]; decide) hop
  rw [if_neg h23]
  by_cases h24 : opcode = 0x55
  · rw [if_pos h24]
    exact absurd (by rw [h24]; decide) hop
  rw [if_neg h24]
  by_cases h25 : opcode = 0xa0
  · rw [if_pos h25]
    exact absurd (by rw [h25]; decide) hop
  rw [if_neg h25]
  by_cases h26 : opcode = 0xa1
  · rw [if_pos h26]
    exact absurd (by rw [h26]; decide) hop
  rw [if_neg h26]
  by_cases h27 : opcode = 0xa2
  · rw [if_pos h27]
    exact absurd (by rw [h27]; decide) hop
  rw [if_neg h27]
  by_cases h28 : opcode = 0xa3
  · rw [if_pos h28]
    exact absurd (by rw [h28]; decide) hop
  rw [if_neg h28]
  by_cases h29 : opcode = 0xa4
  · rw [if_pos h29]
    exact absurd (by rw [h29]; decide) hop
  rw [if_neg h29]
  exact frameG_invalidDefault _

/-! ## Frame preservation through step and run -/

theorem frameG_record_opcodeStart (it : Interp σ) (pc g op : Nat) (name : String) :
    frameG (it.record fun i => TraceEventBuilder.opcodeStart i pc g op name)
      = frameG it := by
  apply frameG_record_mk
  intro i
  rfl

theorem frameG_record_halt (it : Interp σ) (pc g : Nat) (r : HaltReason) :
    frameG (it.record fun i => TraceEventBuilder.halt i pc g r) = frameG it := by
  apply frameG_record_mk
  intro i
  rfl

theorem frameS_catchStep (r : HRes σ) :
    frameS (resState (catchStep r)) = frameS (resState r) := by
  cases r with
  | ok a => rfl
  | error e =>
    obtain ⟨ve, it2⟩ := e
    cases ve <;> simp [catchStep, resState, frameS_haltWith]

theorem frameG_catchStep (r : HRes σ) :
    frameG (resState (catchStep r)) = frameG (resState r) := by
  cases r with
  | ok a => rfl
  | error e =>
    obtain ⟨ve, it2⟩ := e
    cases ve <;> simp [catchStep, resState, frameG_haltWith]

theorem frameS_step (H : Host σ) (it : Interp σ) :
    frameS (resState2 (step H it)) = frameS it := by
  unfold step
  by_cases h1 : it.state.halted = true
  · rw [if_pos h1]; rfl
  rw [if_neg h1]
  by_cases h2 : it.bytecode.length ≤ it.state.pc
  · rw [if_pos h2]
    exact Eq.trans
      (frameS_record_mk (it.haltWith .STOP) fun i =>
        TraceEventBuilder.halt i (it.haltWith .STOP).state.pc
          (it.haltWith .STOP).state.gasRemaining .STOP)
      (frameS_haltWith it .STOP)
  · rw [if_neg h2]
    simp only []
    refine resState2_bindE _ _ _ _ ?_ (fun it2 h2x => ?_)
    · refine Eq.trans (frameS_catchStep _) ?_
      refine Eq.trans (frameS_executeOpcode H _ _) ?_
      exact frameS_record_mk _ _
    · split
      · refine Eq.trans ?_ h2x
        exact frameS_record_mk it2 fun i =>
          TraceEventBuilder.halt i it2.state.pc it2.state.gasRemaining
            (it2.state.haltReason.getD .STOP)
      · exact h2x

theorem frameG_step (H : Host σ) (it : Interp σ)
    (hops : ∀ b ∈ it.bytecode, b ∉ unmeteredTraceOpcodes) :
    frameG (resState2 (step H it)) = frameG it := by
  unfold step
  by_cases h1 : it.state.halted = true
  · rw [if_pos h1]; rfl
  rw [if_neg h1]
  by_cases h2 : it.bytecode.length ≤ it.state.pc
  · rw [if_pos h2]
    exact Eq.trans
      (frameG_record_halt (it.haltWith .STOP) (it.haltWith .STOP).state.pc
        (it.haltWith .STOP).state.gasRemaining .STOP)
      (frameG_haltWith it .STOP)
  · rw [if_neg h2]
    simp only []
    have hmem : it.bytecode.getD it.state.pc 0 ∈ it.bytecode := by
      rw [List.getD_eq_getElem _ _ (by omega)]
      exact List.getElem_mem _
    refine resState2_bindE _ _ _ _ ?_ (fun it2 h2x => ?_)
    · refine Eq.trans (frameG_catchStep _) ?_
      refine Eq.trans (frameG_executeOpcode H _ _ (hops _ hmem)) ?_
      exact frameG_record_opcodeStart _ _ _ _ _
    · split
      · refine Eq.trans ?_ h2x
        exact frameG_record_halt it2 it2.state.pc it2.state.gasRemaining
          (it2.state.haltReason.getD .STOP)
      · exact h2x

theorem frameS_runFuel (H : Host σ) (fuel : Nat) :
    ∀ it itF : Interp σ, runResState (runFuel H fuel it) = some itF →
      frameS itF = frameS it := by
  induction fuel with
  | zero =>
    intro it itF h
    simp [runFuel, runResState] at h
  | succ k ih =>
    intro it itF h
    have hstep := frameS_step H it
    rw [runFuel] at h
    cases hs : step H it with
    | error e =>
      rw [hs] at h hstep
      simp only [bindE2, runResState, Option.some.injEq] at h
      simp only [resState2] at hstep
      rw [← h]
      exact hstep
    | ok p =>
      obtain ⟨c, it1⟩ := p
      rw [hs] at h hstep
      simp only [bindE2] at h
      simp only [resState2] at hstep
      cases c with
      | true =>
        simp only [if_true] at h
        exact (ih it1 itF h).trans hstep
      | false =>
        simp only [Bool.false_eq_true, if_false, runResState, Option.some.injEq] at h
        rw [← h]
        exact hstep

theorem frameG_runFuel (H : Host σ) (fuel : Nat) :
    ∀ it itF : Interp σ, (∀ b ∈ it.bytecode, b ∉ unmeteredTraceOpcodes) →
      runResState (runFuel H fuel it) = some itF → frameG itF = frameG it := by
  induction fuel with
  | zero =>
    intro it itF _ h
    simp [runFuel, runResState] at h
  | succ k ih =>
    intro it itF hops h
    have hstep := frameG_step H it hops
    rw [runFuel] at h
    cases hs : step H it with
    | error e =>
      rw [hs] at h hstep
      simp only [bindE2, runResState, Option.some.injEq] at h
      simp only [resState2] at hstep
      rw [← h]
      exact hstep
    | ok p =>
      obtain ⟨c, it1⟩ := p
      rw [hs] at h hstep
      simp only [bindE2] at h
      simp only [resState2] at hstep
      cases c with
      | true =>
        simp only [if_true] at h
        have hb : it1.bytecode = it.bytecode := congrArg (fun p => p.2.2) hstep
        exact (ih it1 itF (by rw [hb]; exact hops) h).trans hstep
      | false =>
        simp only [Bool.false_eq_true, if_false, runResState, Option.some.injEq] at h
        rw [← h]
        exact hstep

/-! ## Ranked event blocks (C3)

`rankedAppendIn lo hi it itf` bundles what a handler stage contributes to
the trace: the events appended between `it` and `itf`, in nondecreasing
`evRank` order, all ranked within `[lo, hi]`, with the operand-stack
length accounting identity tying `StackPop` / `StackPush` events to the
actual pops and pushes. -/

theorem space_beq_decDigitChar (d : Nat) (hd : d < 10) :
    (' ' == decDigitChar d) = false := by
  interval_cases d <;> decide

theorem contains_space_digits (ds : List Nat) (h : ∀ d ∈ ds, d < 10) :
    (ds.map decDigitChar).contains ' ' = false := by
  induction ds with
  | nil => rfl
  | cons d rest ih =>
    simp only [List.map_cons, List.contains_cons, Bool.or_eq_false_iff]
    exact ⟨space_beq_decDigitChar d (h d (by simp)),
      ih (fun e he => h e (by simp [he]))⟩

theorem contains_space_decString (n : Nat) : (decString n).data.contains ' ' = false := by
  unfold decString
  split
  · decide
  · exact contains_space_digits _ (fun d hd => toDigitsBE_lt 10 (by norm_num) n n d hd)

theorem contains_space_append_mnemonic (s : String) (n : Nat)
    (hs : s.data.contains ' ' = false) :
    (s ++ decString n).data.contains ' ' = false := by
  rw [String.data_append]
  simp only [List.contains_eq_any_beq, List.any_append, Bool.or_eq_false_iff]
  constructor
  · rw [← List.contains_eq_any_beq]; exact hs
  · rw [← List.contains_eq_any_beq]; exact contains_space_decString n

theorem contains_space_append_right (s t : String)
    (ht : t.data.contains ' ' = true) :
    (s ++ t).data.contains ' ' = true := by
  rw [String.data_append]
  simp only [List.contains_eq_any_beq, List.any_append, Bool.or_eq_true]
  right
  rw [← List.contains_eq_any_beq]
  exact ht

theorem stackDup_length (items : List Word256) (n : Nat) (out : List Word256)
    (h : stackDup items n = .ok out) : out.length = items.length + 1 := by
  unfold stackDup at h
  split at h
  · cases h
  split at h
  · cases h
  split at h
  · cases h
  · cases h; simp

theorem stackSwap_length (items : List Word256) (n : Nat) (out : List Word256)
    (h : stackSwap items n = .ok out) : out.length = items.length := by
  unfold stackSwap at h
  split at h
  · cases h
  split at h
  · cases h
  · cases h; simp

theorem rankedAppendIn_of_eq (lo hi : Nat) (a b : Interp σ)
    (ht : b.trace.events = a.trace.events) (hs : b.stack.length = a.stack.length) :
    rankedAppendIn lo hi a b := by
  refine ⟨[], by rw [ht, List.append_nil], List.chain'_nil, ?_, ?_⟩
  · intro e he; exact absurd he (List.not_mem_nil e)
  · simpa using hs

theorem rankedAppendIn_mono {lo hi lo2 hi2 : Nat} {a b : Interp σ}
    (hlo : lo2 ≤ lo) (hhi : hi ≤ hi2)
    (h : rankedAppendIn lo hi a b) : rankedAppendIn lo2 hi2 a b := by
  obtain ⟨L, h1, h2, h3, h4⟩ := h
  exact ⟨L, h1, h2, fun e he => ⟨hlo.trans (h3 e he).1, (h3 e he).2.trans hhi⟩, h4⟩

theorem rankedAppendIn_trans (lo m hi : Nat) (a b c : Interp σ)
    (h1 : rankedAppendIn lo m a b) (h2 : rankedAppendIn m hi b c)
    (hlm : lo ≤ m) (hmh : m ≤ hi) :
    rankedAppendIn lo hi a c := by
  obtain ⟨L1, e1, c1, b1, n1⟩ := h1
  obtain ⟨L2, e2, c2, b2, n2⟩ := h2
  refine ⟨L1 ++ L2, ?_, ?_, ?_, ?_⟩
  · rw [e2, e1, List.append_assoc]
  · refine List.Chain'.append c1 c2 (fun x hx y hy => ?_)
    exact ((b1 x (List.mem_of_mem_getLast? hx)).2).trans
      ((b2 y (List.mem_of_mem_head? hy)).1)
  · intro e he
    rcases List.mem_append.mp he with h | h
    · exact ⟨(b1 e h).1, (b1 e h).2.trans hmh⟩
    · exact ⟨hlm.trans (b2 e h).1, (b2 e h).2⟩
  · simp only [List.filter_append, List.length_append]
    omega

theorem rankedAppendIn_single (lo hi : Nat) (a b : Interp σ) (e : TraceEvent)
    (ht : b.trace.events = a.trace.events ++ [e])
    (hlo : lo ≤ TraceEvent.evRank e) (hhi : TraceEvent.evRank e ≤ hi)
    (hn : b.stack.length + (if TraceEvent.isStackPop e then 1 else 0)
      = a.stack.length + (if TraceEvent.isStackPush e then 1 else 0)) :
    rankedAppendIn lo hi a b := by
  refine ⟨[e], ht, List.chain'_singleton e, ?_, ?_⟩
  · intro x hx
    rw [List.mem_singleton.mp hx]
    exact ⟨hlo, hhi⟩
  · cases hpe : TraceEvent.isStackPop e <;> cases hqe : TraceEvent.isStackPush e <;>
      simp_all [List.filter_singleton]

theorem rankedAppendIn_bindE (lo m hi : Nat) (hlm : lo ≤ m) (hmh : m ≤ hi)
    (it : Interp σ) (x : HRes σ) (f : Interp σ → HRes σ)
    (hx : rankedAppendIn lo m it (resState x))
    (hf : ∀ a, x = .ok a → rankedAppendIn m hi a (resState (f a))) :
    rankedAppendIn lo hi it (resState (bindE x f)) := by
  cases x with
  | error e => exact rankedAppendIn_mono (le_refl lo) hmh hx
  | ok a => exact rankedAppendIn_trans lo m hi it a _ hx (hf a rfl) hlm hmh

theorem rankedAppendIn_bindE2 (lo m hi : Nat) (hlm : lo ≤ m) (hmh : m ≤ hi)
    (it : Interp σ) (x : Except (VmError × Interp σ) (β × Interp σ))
    (f : β → Interp σ → HRes σ)
    (hx : rankedAppendIn lo m it (resState2 x))
    (hf : ∀ b a, x = .ok (b, a) → rankedAppendIn m hi a (resState (f b a))) :
    rankedAppendIn lo hi it (resState (bindE2 x f)) := by
  cases x with
  | error e => exact rankedAppendIn_mono (le_refl lo) hmh hx
  | ok p => exact rankedAppendIn_trans lo m hi it p.2 _ hx (hf p.1 p.2 rfl) hlm hmh

theorem rankedAppendIn_bindE_lift (lo m hi : Nat) (hlm : lo ≤ m) (hmh : m ≤ hi)
    (it a : Interp σ) (x : Except VmError β) (f : β → HRes σ)
    (hx : rankedAppendIn lo m it a)
    (hf : ∀ b, x = .ok b → rankedAppendIn m hi a (resState (f b))) :
    rankedAppendIn lo hi it (resState (bindE (liftStackErr a x) f)) := by
  cases x with
  | error e => exact rankedAppendIn_mono (le_refl lo) hmh hx
  | ok b => exact rankedAppendIn_trans lo m hi it a _ hx (hf b rfl) hlm hmh

theorem rankedAppendIn_chargeAndRecord_base (it : Interp σ) (amt : Nat) (r : String)
    (hr : r.data.contains ' ' = false) :
    rankedAppendIn 0 0 it (resState (it.chargeAndRecord amt r)) := by
  by_cases h : it.state.gasRemaining < amt
  · rw [chargeAndRecord_of_lt it amt r h]
    exact rankedAppendIn_of_eq 0 0 _ _ rfl rfl
  · rw [chargeAndRecord_of_le it amt r (by omega)]
    refine rankedAppendIn_single 0 0 _ _ _ rfl ?_ ?_ ?_
    · simp only [TraceEvent.evRank, hr]; decide
    · simp only [TraceEvent.evRank, hr]; decide
    · simp [resState, TraceEvent.isStackPop, TraceEvent.isStackPush]

theorem rankedAppendIn_chargeAndRecord_dyn (it : Interp σ) (amt : Nat) (r : String)
    (hr : r.data.contains ' ' = true) :
    rankedAppendIn 2 2 it (resState (it.chargeAndRecord amt r)) := by
  by_cases h : it.state.gasRemaining < amt
  · rw [chargeAndRecord_of_lt it amt r h]
    exact rankedAppendIn_of_eq 2 2 _ _ rfl rfl
  · rw [chargeAndRecord_of_le it amt r (by omega)]
    refine rankedAppendIn_single 2 2 _ _ _ rfl ?_ ?_ ?_
    · simp only [TraceEvent.evRank, hr]; decide
    · simp only [TraceEvent.evRank, hr]; decide
    · simp [resState, TraceEvent.isStackPop, TraceEvent.isStackPush]

theorem rankedAppendIn_popRecord (it : Interp σ) :
    rankedAppendIn 1 1 it (resState2 it.popRecord) := by
  cases hs : it.stack with
  | nil =>
    rw [popRecord_nil it hs]
    exact rankedAppendIn_of_eq 1 1 _ _ rfl rfl
  | cons w rest =>
    rw [popRecord_cons it w rest hs]
    refine rankedAppendIn_single 1 1 _ _ _ rfl ?_ ?_ ?_
    · simp [TraceEventBuilder.stackPop, TraceEvent.evRank]
    · simp [TraceEventBuilder.stackPop, TraceEvent.evRank]
    · simp [resState2, TraceEventBuilder.stackPop, TraceEvent.isStackPop,
        TraceEvent.isStackPush, hs]

theorem rankedAppendIn_pushRecord (it : Interp σ) (w : Word256) :
    rankedAppendIn 3 3 it (resState (it.pushRecord w)) := by
  by_cases h : MAX_STACK_DEPTH ≤ it.stack.length
  · rw [pushRecord_of_full it w h]
    exact rankedAppendIn_of_eq 3 3 _ _ rfl rfl
  · rw [pushRecord_of_lt it w (by omega)]
    refine rankedAppendIn_single 3 3 _ _ _ rfl ?_ ?_ ?_
    · simp [TraceEventBuilder.stackPush, TraceEvent.evRank]
    · simp [TraceEventBuilder.stackPush, TraceEvent.evRank]
    · simp [resState, TraceEventBuilder.stackPush, TraceEvent.isStackPop,
        TraceEvent.isStackPush]

theorem rankedAppendIn_congr_left (lo hi : Nat) (a a2 b : Interp σ)
    (h : rankedAppendIn lo hi a2 b)
    (ht : a2.trace.events = a.trace.events) (hs : a2.stack.length = a.stack.length) :
    rankedAppendIn lo hi a b := by
  obtain ⟨L, h1, h2, h3, h4⟩ := h
  refine ⟨L, by rw [h1, ht], h2, h3, ?_⟩
  rw [hs] at h4
  exact h4

theorem rankedAppendIn_transR (lo m hi : Nat) (a b c : Interp σ)
    (h2 : rankedAppendIn m hi b c) (h1 : rankedAppendIn lo m a b)
    (hlm : lo ≤ m) (hmh : m ≤ hi) : rankedAppendIn lo hi a c :=
  rankedAppendIn_trans lo m hi a b c h1 h2 hlm hmh

/-! ## Per-handler ranked event blocks (C3) -/

theorem rankedAppend_binArith (cost : Nat) (reason : String)
    (f : Word256 → Word256 → Word256) (it : Interp σ)
    (hr : reason.data.contains ' ' = false) :
    rankedAppendIn 0 4 it (resState (binArith cost reason f it)) := by
  unfold binArith
  refine rankedAppendIn_bindE 0 0 4 (by omega) (by omega) it _ _
    (rankedAppendIn_chargeAndRecord_base it cost reason hr) (fun a1 _ => ?_)
  refine rankedAppendIn_bindE2 0 1 4 (by omega) (by omega) a1 _ _
    (rankedAppendIn_mono (by omega) (by omega) (rankedAppendIn_popRecord a1))
    (fun b a2 _ => ?_)
  refine rankedAppendIn_bindE2 1 1 4 (by omega) (by omega) a2 _ _
    (rankedAppendIn_popRecord a2) (fun c a3 _ => ?_)
  refine rankedAppendIn_bindE 1 3 4 (by omega) (by omega) a3 _ _
    (rankedAppendIn_mono (by omega) (by omega) (rankedAppendIn_pushRecord a3 (f c b)))
    (fun a4 _ => ?_)
  exact rankedAppendIn_of_eq 3 4 _ _ rfl rfl

theorem rankedAppend_executeStop (it : Interp σ) :
    rankedAppendIn 0 4 it (resState (executeStop it)) :=
  rankedAppendIn_of_eq 0 4 _ _ rfl rfl

theorem rankedAppend_executePOP (it : Interp σ) :
    rankedAppendIn 0 4 it (resState (executePOP it)) := by
  unfold executePOP
  refine rankedAppendIn_bindE 0 0 4 (by omega) (by omega) it _ _
    (rankedAppendIn_chargeAndRecord_base it 2 "POP" (by decide)) (fun a1 _ => ?_)
  refine rankedAppendIn_bindE2 0 1 4 (by omega) (by omega) a1 _ _
    (rankedAppendIn_mono (by omega) (by omega) (rankedAppendIn_popRecord a1))
    (fun b a2 _ => ?_)
  exact rankedAppendIn_of_eq 1 4 _ _ rfl rfl

theorem rankedAppend_executePush (opcode : Nat) (it : Interp σ) :
    rankedAppendIn 0 4 it (resState (executePush opcode it)) := by
  unfold executePush
  refine rankedAppendIn_bindE 0 0 4 (by omega) (by omega) it _ _
    (rankedAppendIn_chargeAndRecord_base it 3 _
      (contains_space_append_mnemonic "PUSH" _ (by decide))) (fun a1 _ => ?_)
  refine rankedAppendIn_bindE 0 3 4 (by omega) (by omega) a1 _ _
    (rankedAppendIn_mono (by omega) (by omega) (rankedAppendIn_pushRecord a1 _))
    (fun a2 _ => ?_)
  exact rankedAppendIn_of_eq 3 4 _ _ rfl rfl

theorem rankedAppend_executeDUP (opcode : Nat) (it : Interp σ) :
    rankedAppendIn 0 4 it (resState (executeDUP opcode it)) := by
  unfold executeDUP
  refine rankedAppendIn_bindE 0 0 4 (by omega) (by omega) it _ _
    (rankedAppendIn_chargeAndRecord_base it 3 _
      (contains_space_append_mnemonic "DUP" _ (by decide))) (fun a1 _ => ?_)
  refine rankedAppendIn_bindE_lift 0 0 4 (by omega) (by omega) a1 a1 _ _
    (rankedAppendIn_of_eq 0 0 _ _ rfl rfl) (fun value _ => ?_)
  refine rankedAppendIn_bindE_lift 0 0 4 (by omega) (by omega) a1 a1 _ _
    (rankedAppendIn_of_eq 0 0 _ _ rfl rfl) (fun items hitems => ?_)
  refine rankedAppendIn_single 0 4 a1 _ _ rfl ?_ ?_ ?_
  · simp [TraceEventBuilder.stackPush, TraceEvent.evRank]
  · simp [TraceEventBuilder.stackPush, TraceEvent.evRank]
  · have hlen := stackDup_length a1.stack _ items hitems
    simp [resState, TraceEventBuilder.stackPush, TraceEvent.isStackPop,
      TraceEvent.isStackPush, Interp.record, Interp.advancePC, hlen]

theorem rankedAppend_executeSWAP (opcode : Nat) (it : Interp σ) :
    rankedAppendIn 0 4 it (resState (executeSWAP opcode it)) := by
  unfold executeSWAP
  refine rankedAppendIn_bindE 0 0 4 (by omega) (by omega) it _ _
    (rankedAppendIn_chargeAndRecord_base it 3 _
      (contains_space_append_mnemonic "SWAP" _ (by decide))) (fun a1 _ => ?_)
  refine rankedAppendIn_bindE_lift 0 0 4 (by omega) (by omega) a1 a1 _ _
    (rankedAppendIn_of_eq 0 0 _ _ rfl rfl) (fun items hitems => ?_)
  exact rankedAppendIn_of_eq 0 4 _ _ rfl
    (by simpa [resState, Interp.advancePC]
      using stackSwap_length a1.stack _ items hitems)

theorem rankedAppend_executeMSIZE (it : Interp σ) :
    rankedAppendIn 0 4 it (resState (executeMSIZE it)) := by
  unfold executeMSIZE
  refine rankedAppendIn_bindE 0 0 4 (by omega) (by omega) it _ _
    (rankedAppendIn_chargeAndRecord_base it 2 "MSIZE" (by decide)) (fun a1 _ => ?_)
  refine rankedAppendIn_bindE 0 3 4 (by omega) (by omega) a1 _ _
    (rankedAppendIn_mono (by omega) (by omega) (rankedAppendIn_pushRecord a1 _))
    (fun a2 _ => ?_)
  exact rankedAppendIn_of_eq 3 4 _ _ rfl rfl

theorem rankedAppend_executeCALLDATASIZE (it : Interp σ) :
    rankedAppendIn 0 4 it (resState (executeCALLDATASIZE it)) := by
  unfold executeCALLDATASIZE
  refine rankedAppendIn_bindE 0 0 4 (by omega) (by omega) it _ _
    (rankedAppendIn_chargeAndRecord_base it 2 "CALLDATASIZE" (by decide))
    (fun a1 _ => ?_)
  refine rankedAppendIn_bindE 0 3 4 (by omega) (by omega) a1 _ _
    (rankedAppendIn_mono (by omega) (by omega) (rankedAppendIn_pushRecord a1 _))
    (fun a2 _ => ?_)
  exact rankedAppendIn_of_eq 3 4 _ _ rfl rfl

theorem rankedAppend_executePC (it : Interp σ) :
    rankedAppendIn 0 4 it (resState (executePC it)) := by
  unfold executePC
  refine rankedAppendIn_bindE 0 0 4 (by omega) (by omega) it _ _
    (rankedAppendIn_chargeAndRecord_base it 2 "PC" (by decide)) (fun a1 _ => ?_)
  refine rankedAppendIn_bindE 0 3 4 (by omega) (by omega) a1 _ _
    (rankedAppendIn_mono (by omega) (by omega) (rankedAppendIn_pushRecord a1 _))
    (fun a2 _ => ?_)
  exact rankedAppendIn_of_eq 3 4 _ _ rfl rfl

theorem rankedAppend_executeJUMPDEST (it : Interp σ) :
    rankedAppendIn 0 4 it (resState (executeJUMPDEST it)) := by
  unfold executeJUMPDEST
  refine rankedAppendIn_bindE 0 0 4 (by omega) (by omega) it _ _
    (rankedAppendIn_chargeAndRecord_base it 1 "JUMPDEST" (by decide))
    (fun a1 _ => ?_)
  exact rankedAppendIn_of_eq 0 4 _ _ rfl rfl

theorem rankedAppend_executeCALLDATALOAD (it : Interp σ) :
    rankedAppendIn 0 4 it (resState (executeCALLDATALOAD it)) := by
  unfold executeCALLDATALOAD
  refine rankedAppendIn_bindE 0 0 4 (by omega) (by omega) it _ _
    (rankedAppendIn_chargeAndRecord_base it 3 "CALLDATALOAD" (by decide))
    (fun a1 _ => ?_)
  refine rankedAppendIn_bindE2 0 1 4 (by omega) (by omega) a1 _ _
    (rankedAppendIn_mono (by omega) (by omega) (rankedAppendIn_popRecord a1))
    (fun b a2 _ => ?_)
  refine rankedAppendIn_bindE 1 3 4 (by omega) (by omega) a2 _ _
    (rankedAppendIn_mono (by omega) (by omega) (rankedAppendIn_pushRecord a2 _))
    (fun a3 _ => ?_)
  exact rankedAppendIn_of_eq 3 4 _ _ rfl rfl

theorem rankedAppend_executeMLOAD (it : Interp σ) :
    rankedAppendIn 0 4 it (resState (executeMLOAD it)) := by
  unfold executeMLOAD
  refine rankedAppendIn_bindE 0 0 4 (by omega) (by omega) it _ _
    (rankedAppendIn_chargeAndRecord_base it 3 "MLOAD" (by decide)) (fun a1 _ => ?_)
  refine rankedAppendIn_bindE2 0 1 4 (by omega) (by omega) a1 _ _
    (rankedAppendIn_mono (by omega) (by omega) (rankedAppendIn_popRecord a1))
    (fun b a2 _ => ?_)
  refine rankedAppendIn_bindE 1 2 4 (by omega) (by omega) a2 _ _ ?_ (fun a4 _ => ?_)
  · split
    · exact rankedAppendIn_mono (by omega) (by omega)
        (rankedAppendIn_congr_left 2 2 a2 _ _
          (rankedAppendIn_chargeAndRecord_dyn _ _ _ (by decide)) rfl rfl)
    · exact rankedAppendIn_of_eq 1 2 _ _ rfl rfl
  · refine rankedAppendIn_bindE 2 3 4 (by omega) (by omega) a4 _ _ ?_ (fun a6 _ => ?_)
    · refine rankedAppendIn_transR 2 2 3 a4 _ _
        (rankedAppendIn_mono (by omega) (by omega) (rankedAppendIn_pushRecord _ _))
        ?_ (by omega) (by omega)
      refine rankedAppendIn_single 2 2 a4 _ _ rfl ?_ ?_ ?_
      · simp [TraceEventBuilder.memoryRead, TraceEvent.evRank]
      · simp [TraceEventBuilder.memoryRead, TraceEvent.evRank]
      · simp [TraceEventBuilder.memoryRead, TraceEvent.isStackPop,
          TraceEvent.isStackPush, Interp.record, Interp.setState]
    · exact rankedAppendIn_of_eq 3 4 _ _ rfl rfl

theorem rankedAppend_executeMSTORE (it : Interp σ) :
    rankedAppendIn 0 4 it (resState (executeMSTORE it)) := by
  unfold executeMSTORE
  refine rankedAppendIn_bindE 0 0 4 (by omega) (by omega) it _ _
    (rankedAppendIn_chargeAndRecord_base it 3 "MSTORE" (by decide)) (fun a1 _ => ?_)
  refine rankedAppendIn_bindE2 0 1 4 (by omega) (by omega) a1 _ _
    (rankedAppendIn_mono (by omega) (by omega) (rankedAppendIn_popRecord a1))
    (fun b a2 _ => ?_)
  refine rankedAppendIn_bindE2 1 1 4 (by omega) (by omega) a2 _ _
    (rankedAppendIn_popRecord a2) (fun c a3 _ => ?_)
  refine rankedAppendIn_bindE 1 2 4 (by omega) (by omega) a3 _ _ ?_ (fun a5 _ => ?_)
  · split
    · exact rankedAppendIn_mono (by omega) (by omega)
        (rankedAppendIn_congr_left 2 2 a3 _ _
          (rankedAppendIn_chargeAndRecord_dyn _ _ _ (by decide)) rfl rfl)
    · exact rankedAppendIn_of_eq 1 2 _ _ rfl rfl
  · refine rankedAppendIn_single 2 4 a5 _ _ rfl ?_ ?_ ?_
    · simp [TraceEventBuilder.memoryWrite, TraceEvent.evRank]
    · simp [TraceEventBuilder.memoryWrite, TraceEvent.evRank]
    · simp [resState, TraceEventBuilder.memoryWrite, TraceEvent.isStackPop,
        TraceEvent.isStackPush, Interp.record, Interp.setState, Interp.advancePC]

theorem rankedAppend_executeMSTORE8 (it : Interp σ) :
    rankedAppendIn 0 4 it (resState (executeMSTORE8 it)) := by
  unfold executeMSTORE8
  refine rankedAppendIn_bindE 0 0 4 (by omega) (by omega) it _ _
    (rankedAppendIn_chargeAndRecord_base it 3 "MSTORE8" (by decide)) (fun a1 _ => ?_)
  refine rankedAppendIn_bindE2 0 1 4 (by omega) (by omega) a1 _ _
    (rankedAppendIn_mono (by omega) (by omega) (rankedAppendIn_popRecord a1))
    (fun b a2 _ => ?_)
  refine rankedAppendIn_bindE2 1 1 4 (by omega) (by omega) a2 _ _
    (rankedAppendIn_popRecord a2) (fun c a3 _ => ?_)
  refine rankedAppendIn_bindE 1 2 4 (by omega) (by omega) a3 _ _ ?_ (fun a5 _ => ?_)
  · split
    · exact rankedAppendIn_mono (by omega) (by omega)
        (rankedAppendIn_congr_left 2 2 a3 _ _
          (rankedAppendIn_chargeAndRecord_dyn _ _ _ (by decide)) rfl rfl)
    · exact rankedAppendIn_of_eq 1 2 _ _ rfl rfl
  · refine rankedAppendIn_single 2 4 a5 _ _ rfl ?_ ?_ ?_
    · simp [TraceEventBuilder.memoryWrite, TraceEvent.evRank]
    · simp [TraceEventBuilder.memoryWrite, TraceEvent.evRank]
    · simp [resState, TraceEventBuilder.memoryWrite, TraceEvent.isStackPop,
        TraceEvent.isStackPush, Interp.record, Interp.setState, Interp.advancePC]

theorem rankedAppend_executeCALLDATACOPY (it : Interp σ) :
    rankedAppendIn 0 4 it (resState (executeCALLDATACOPY it)) := by
  unfold executeCALLDATACOPY
  refine rankedAppendIn_bindE 0 0 4 (by omega) (by omega) it _ _
    (rankedAppendIn_chargeAndRecord_base it 3 "CALLDATACOPY" (by decide))
    (fun a1 _ => ?_)
  refine rankedAppendIn_bindE2 0 1 4 (by omega) (by omega) a1 _ _
    (rankedAppendIn_mono (by omega) (by omega) (rankedAppendIn_popRecord a1))
    (fun b a2 _ => ?_)
  refine rankedAppendIn_bindE2 1 1 4 (by omega) (by omega) a2 _ _
    (rankedAppendIn_popRecord a2) (fun c a3 _ => ?_)
  refine rankedAppendIn_bindE2 1 1 4 (by omega) (by omega) a3 _ _
    (rankedAppendIn_popRecord a3) (fun d a4 _ => ?_)
  refine rankedAppendIn_bindE 1 2 4 (by omega) (by omega) a4 _ _ ?_ (fun a5 _ => ?_)
  · split
    · exact rankedAppendIn_mono (by omega) (by omega)
        (rankedAppendIn_chargeAndRecord_dyn _ _ _ (by decide))
    · exact rankedAppendIn_of_eq 1 2 _ _ rfl rfl
  refine rankedAppendIn_bindE 2 2 4 (by omega) (by omega) a5 _ _ ?_ (fun a7 _ => ?_)
  · split
    · simp only []
      split
      · exact rankedAppendIn_congr_left 2 2 a5 _ _
          (rankedAppendIn_chargeAndRecord_dyn _ _ _ (by decide)) rfl rfl
      · exact rankedAppendIn_of_eq 2 2 _ _ rfl rfl
    · exact rankedAppendIn_of_eq 2 2 _ _ rfl rfl
  split
  · refine rankedAppendIn_single 2 4 a7 _ _ rfl ?_ ?_ ?_
    · simp [TraceEventBuilder.memoryWrite, TraceEvent.evRank]
    · simp [TraceEventBuilder.memoryWrite, TraceEvent.evRank]
    · simp [resState, TraceEventBuilder.memoryWrite, TraceEvent.isStackPop,
        TraceEvent.isStackPush, Interp.record, Interp.setState, Interp.advancePC]
  · exact rankedAppendIn_of_eq 2 4 _ _ rfl rfl

theorem rankedAppend_returnLike (reason : HaltReason) (it : Interp σ) :
    rankedAppendIn 0 4 it (resState (returnLike reason it)) := by
  unfold returnLike
  refine rankedAppendIn_bindE2 0 1 4 (by omega) (by omega) it _ _
    (rankedAppendIn_mono (by omega) (by omega) (rankedAppendIn_popRecord it))
    (fun b a1 _ => ?_)
  refine rankedAppendIn_bindE2 1 1 4 (by omega) (by omega) a1 _ _
    (rankedAppendIn_popRecord a1) (fun c a2 _ => ?_)
  simp only []
  split
  · refine rankedAppendIn_bindE 1 2 4 (by omega) (by omega) a2 _ _ ?_ (fun a4 _ => ?_)
    · split
      · exact rankedAppendIn_mono (by omega) (by omega)
          (rankedAppendIn_congr_left 2 2 a2 _ _
            (rankedAppendIn_chargeAndRecord_dyn _ _ _
              (contains_space_append_right _ _ (by decide))) rfl rfl)
      · exact rankedAppendIn_of_eq 1 2 _ _ rfl rfl
    · exact rankedAppendIn_of_eq 2 4 _ _ rfl rfl
  · exact rankedAppendIn_of_eq 1 4 _ _ rfl rfl

theorem rankedAppend_executeJUMP (it : Interp σ) :
    rankedAppendIn 0 4 it (resState (executeJUMP it)) := by
  unfold executeJUMP
  refine rankedAppendIn_bindE 0 0 4 (by omega) (by omega) it _ _
    (rankedAppendIn_chargeAndRecord_base it 8 "JUMP" (by decide)) (fun a1 _ => ?_)
  refine rankedAppendIn_bindE2 0 1 4 (by omega) (by omega) a1 _ _
    (rankedAppendIn_mono (by omega) (by omega) (rankedAppendIn_popRecord a1))
    (fun b a2 _ => ?_)
  simp only []
  split
  · refine rankedAppendIn_single 1 4 a2 _ _ rfl ?_ ?_ ?_
    · simp [TraceEventBuilder.jump, TraceEvent.evRank]
    · simp [TraceEventBuilder.jump, TraceEvent.evRank]
    · simp [resState, TraceEventBuilder.jump, TraceEvent.isStackPop,
        TraceEvent.isStackPush, Interp.record, Interp.haltWith]
  split
  · refine rankedAppendIn_single 1 4 a2 _ _ rfl ?_ ?_ ?_
    · simp [TraceEventBuilder.jump, TraceEvent.evRank]
    · simp [TraceEventBuilder.jump, TraceEvent.evRank]
    · simp [resState, TraceEventBuilder.jump, TraceEvent.isStackPop,
        TraceEvent.isStackPush, Interp.record, Interp.haltWith]
  · refine rankedAppendIn_single 1 4 a2 _ _ rfl ?_ ?_ ?_
    · simp [TraceEventBuilder.jump, TraceEvent.evRank]
    · simp [TraceEventBuilder.jump, TraceEvent.evRank]
    · simp [resState, TraceEventBuilder.jump, TraceEvent.isStackPop,
        TraceEvent.isStackPush, Interp.record, Interp.setState]

theorem rankedAppend_executeJUMPI (it : Interp σ) :
    rankedAppendIn 0 4 it (resState (executeJUMPI it)) := by
  unfold executeJUMPI
  refine rankedAppendIn_bindE 0 0 4 (by omega) (by omega) it _ _
    (rankedAppendIn_chargeAndRecord_base it 10 "JUMPI" (by decide)) (fun a1 _ => ?_)
  refine rankedAppendIn_bindE2 0 1 4 (by omega) (by omega) a1 _ _
    (rankedAppendIn_mono (by omega) (by omega) (rankedAppendIn_popRecord a1))
    (fun b a2 _ => ?_)
  refine rankedAppendIn_bindE2 1 1 4 (by omega) (by omega) a2 _ _
    (rankedAppendIn_popRecord a2) (fun c a3 _ => ?_)
  simp only []
  split
  · refine rankedAppendIn_single 1 4 a3 _ _ rfl ?_ ?_ ?_
    · simp [TraceEventBuilder.jump, TraceEvent.evRank]
    · simp [TraceEventBuilder.jump, TraceEvent.evRank]
    · simp [resState, TraceEventBuilder.jump, TraceEvent.isStackPop,
        TraceEvent.isStackPush, Interp.record, Interp.advancePC]
  split
  · refine rankedAppendIn_single 1 4 a3 _ _ rfl ?_ ?_ ?_
    · simp [TraceEventBuilder.jump, TraceEvent.evRank]
    · simp [TraceEventBuilder.jump, TraceEvent.evRank]
    · simp [resState, TraceEventBuilder.jump, TraceEvent.isStackPop,
        TraceEvent.isStackPush, Interp.record, Interp.haltWith]
  split
  · refine rankedAppendIn_single 1 4 a3 _ _ rfl ?_ ?_ ?_
    · simp [TraceEventBuilder.jump, TraceEvent.evRank]
    · simp [TraceEventBuilder.jump, TraceEvent.evRank]
    · simp [resState, TraceEventBuilder.jump, TraceEvent.isStackPop,
        TraceEvent.isStackPush, Interp.record, Interp.haltWith]
  · refine rankedAppendIn_single 1 4 a3 _ _ rfl ?_ ?_ ?_
    · simp [TraceEventBuilder.jump, TraceEvent.evRank]
    · simp [TraceEventBuilder.jump, TraceEvent.evRank]
    · simp [resState, TraceEventBuilder.jump, TraceEvent.isStackPop,
        TraceEvent.isStackPush, Interp.record, Interp.setState]

/-- Dispatch-level ranked block: every handler other than SLOAD, SSTORE
and LOG0-LOG4 appends its trace events as one block in `evRank` order,
with one `StackPop`/`StackPush` event per actual pop/push. -/
theorem rankedAppend_executeOpcode (H : Host σ) (opcode : Nat) (it : Interp σ)
    (hop : opcode ∉ unmeteredTraceOpcodes) :
    rankedAppendIn 0 4 it (resState (executeOpcode H opcode it)) := by
  unfold executeOpcode
  by_cases h1 : isPushOpcode opcode = true
  · rw [if_pos h1]
    exact rankedAppend_executePush _ _
  rw [if_neg h1]
  by_cases h2 : 0x80 ≤ opcode ∧ opcode ≤ 0x8f
  · rw [if_pos h2]
    exact rankedAppend_executeDUP _ _
  rw [if_neg h2]
  by_cases h3 : 0x90 ≤ opcode ∧ opcode ≤ 0x9f
  · rw [if_pos h3]
    exact rankedAppend_executeSWAP _ _
  rw [if_neg h3]
  by_cases h4 : opcode = 0x00
  · rw [if_pos h4]
    exact rankedAppend_executeStop _
  rw [if_neg h4]
  by_cases h5 : opcode = 0x01
  · rw [if_pos h5]
    exact rankedAppend_binArith _ _ _ _ (by decide)
  rw [if_neg h5]
  by_cases h6 : opcode = 0x02
  · rw [if_pos h6]
    exact rankedAppend_binArith _ _ _ _ (by decide)
  rw [if_neg h6]
  by_cases h7 : opcode = 0x03
  · rw [if_pos h7]
    exact rankedAppend_binArith _ _ _ _ (by decide)
  rw [if_neg h7]
  by_cases h8 : opcode = 0x04
  · rw [if_pos h8]
    exact rankedAppend_binArith _ _ _ _ (by decide)
  rw [if_neg h8]
  by_cases h9 : opcode = 0x50
  · rw [if_pos h9]
    exact rankedAppend_executePOP _
  rw [if_neg h9]
  by_cases h10 : opcode = 0x51
  · rw [if_pos h10]
    exact rankedAppend_executeMLOAD _
  rw [if_neg h10]
  by_cases h11 : opcode = 0x52
  · rw [if_pos h11]
    exact rankedAppend_executeMSTORE _
  rw [if_neg h11]
  by_cases h12 : opcode = 0x53
  · rw [if_pos h12]
    exact rankedAppend_executeMSTORE8 _
  rw [if_neg h12]
  by_cases h13 : opcode = 0x59
  · rw [if_pos h13]
    exact rankedAppend_executeMSIZE _
  rw [if_neg h13]
  by_cases h14 : opcode = 0x35
  · rw [if_pos h14]
    exact rankedAppend_executeCALLDATALOAD _
  rw [if_neg h14]
  by_cases h15 : opcode = 0x36
  · rw [if_pos h15]
    exact rankedAppend_executeCALLDATASIZE _
  rw [if_neg h15]
  by_cases h16 : opcode = 0x37
  · rw [if_pos h16]
    exact rankedAppend_executeCALLDATACOPY _
  rw [if_neg h16]
  by_cases h17 : opcode = 0xf3
  · rw [if_pos h17]
    exact rankedAppend_returnLike _ _
  rw [if_neg h17]
  by_cases h18 : opcode = 0xfd
  · rw [if_pos h18]
    exact rankedAppend_returnLike _ _
  rw [if_neg h18]
  by_cases h19 : opcode = 0x58
  · rw [if_pos h19]
    exact rankedAppend_executePC _
  rw [if_neg h19]
  by_cases h20 : opcode = 0x56
  · rw [if_pos h20]
    exact rankedAppend_executeJUMP _
  rw [if_neg h20]
  by_cases h21 : opcode = 0x57
  · rw [if_pos h21]
    exact rankedAppend_executeJUMPI _
  rw [if_neg h21]
  by_cases h22 : opcode = 0x5b
  · rw [if_pos h22]
    exact rankedAppend_executeJUMPDEST _
  rw [if_neg h22]
  by_cases h23 : opcode = 0x54
  · rw [if_pos h23]
    exact absurd (by rw [h23]; decide) hop
  rw [if_neg h23]
  by_cases h24 : opcode = 0x55
  · rw [if_pos h24]
    exact absurd (by rw [h24]; decide) hop
  rw [if_neg h24]
  by_cases h25 : opcode = 0xa0
  · rw [if_pos h25]
    exact absurd (by rw [h25]; decide) hop
  rw [if_neg h25]
  by_cases h26 : opcode = 0xa1
  · rw [if_pos h26]
    exact absurd (by rw [h26]; decide) hop
  rw [if_neg h26]
  by_cases h27 : opcode = 0xa2
  · rw [if_pos h27]
    exact absurd (by rw [h27]; decide) hop
  rw [if_neg h27]
  by_cases h28 : opcode = 0xa3
  · rw [if_pos h28]
    exact absurd (by rw [h28]; decide) hop
  rw [if_neg h28]
  by_cases h29 : opcode = 0xa4
  · rw [if_pos h29]
    exact absurd (by rw [h29]; decide) hop
  rw [if_neg h29]
  exact rankedAppendIn_of_eq 0 4 _ _ rfl rfl

/-! ## Invalid jump characterizations (C7) -/


theorem executeJUMP_invalid (it : Interp σ) (dest : Word256) (rest : List Word256)
    (hgas : 8 ≤ it.state.gasRemaining) (hstk : it.stack = dest :: rest)
    (hbad : it.bytecode.length ≤ dest.value ∨ it.validJumpDests.contains dest.value = false) :
    executeJUMP it = .ok { it with
      state := ({ it.state with gasRemaining := it.state.gasRemaining - 8 }).halt .INVALID_JUMP,
      stack := rest,
      trace := ⟨it.trace.events ++
        [.gasCharge it.trace.nextIndex it.state.pc (it.state.gasRemaining - 8)
          (decString 8) "JUMP",
         .stackPop (it.trace.nextIndex + 1) it.state.pc (it.state.gasRemaining - 8)
          dest.toHexWith0x,
         .jump (it.trace.nextIndex + 2) it.state.pc (it.state.gasRemaining - 8)
          it.state.pc dest.value false true],
        it.trace.nextIndex + 3⟩ } := by
  unfold executeJUMP
  rw [chargeAndRecord_of_le it 8 "JUMP" hgas, bindE_ok]
  rw [popRecord_cons _ dest rest (by simp [hstk]), bindE2_ok]
  simp only [Interp.record, Interp.haltWith, TraceCollector.getNextIndex, TraceCollector.record,
    TraceEventBuilder.jump, TraceEventBuilder.stackPop, TraceEventBuilder.gasCharge]
  rcases hbad with hlen | hmem
  · rw [if_pos (by simpa using hlen)]
    simp [Nat.add_assoc, List.append_assoc]
  · by_cases hlen : it.bytecode.length ≤ dest.value
    · rw [if_pos (by simpa using hlen)]
      simp [Nat.add_assoc, List.append_assoc]
    · rw [if_neg (by simpa using hlen), if_pos (by simpa using hmem)]
      simp [Nat.add_assoc, List.append_assoc]

theorem executeJUMPI_invalid (it : Interp σ) (cond dest : Word256) (rest : List Word256)
    (hgas : 10 ≤ it.state.gasRemaining) (hstk : it.stack = cond :: dest :: rest)
    (hcond : cond.value ≠ 0)
    (hbad : it.bytecode.length ≤ dest.value ∨ it.validJumpDests.contains dest.value = false) :
    executeJUMPI it = .ok { it with
      state := ({ it.state with gasRemaining := it.state.gasRemaining - 10 }).halt .INVALID_JUMP,
      stack := rest,
      trace := ⟨it.trace.events ++
        [.gasCharge it.trace.nextIndex it.state.pc (it.state.gasRemaining - 10)
          (decString 10) "JUMPI",
         .stackPop (it.trace.nextIndex + 1) it.state.pc (it.state.gasRemaining - 10)
          cond.toHexWith0x,
         .stackPop (it.trace.nextIndex + 2) it.state.pc (it.state.gasRemaining - 10)
          dest.toHexWith0x,
         .jump (it.trace.nextIndex + 3) it.state.pc (it.state.gasRemaining - 10)
          it.state.pc dest.value true true],
        it.trace.nextIndex + 4⟩ } := by
  unfold executeJUMPI
  rw [chargeAndRecord_of_le it 10 "JUMPI" hgas, bindE_ok]
  rw [popRecord_cons _ cond (dest :: rest) (by simp [hstk]), bindE2_ok]
  rw [popRecord_cons _ dest rest (by simp), bindE2_ok]
  simp only [Interp.record, Interp.haltWith, TraceCollector.getNextIndex, TraceCollector.record,
    TraceEventBuilder.jump, TraceEventBuilder.stackPop, TraceEventBuilder.gasCharge]
  rw [show (decide (cond.value ≠ 0)) = true from by simp [hcond]]
  rw [if_neg (by simp)]
  rcases hbad with hlen | hmem
  · rw [if_pos (by simpa using hlen)]
    simp [Nat.add_assoc, List.append_assoc]
  · by_cases hlen : it.bytecode.length ≤ dest.value
    · rw [if_pos (by simpa using hlen)]
      simp [Nat.add_assoc, List.append_assoc]
    · rw [if_neg (by simpa using hlen), if_pos (by simpa using hmem)]
      simp [Nat.add_assoc, List.append_assoc]

/-! # Claim theorems -/

set_option maxRecDepth 8192 in
/-- C5: Word256 arithmetic is modulo `2^256` with guarded zero cases:
`MAX_UINT256 + 1 = 0`, `0 - 1 = MAX_UINT256`, `MAX_UINT256 * 2 =
MAX_UINT256 - 1`, division and modulus by zero give zero, and shifts by
256 or more give zero. -/
theorem claim_C5_word256_arithmetic :
    Word256.max.add Word256.one = Word256.zero ∧
    Word256.zero.sub Word256.one = Word256.max ∧
    Word256.max.mul (Word256.ofNat 2) = Word256.ofNat (MAX_UINT256 - 1) ∧
    (∀ a : Word256, a.div Word256.zero = Word256.zero) ∧
    (∀ a : Word256, a.mod Word256.zero = Word256.zero) ∧
    (∀ a s : Word256, 256 ≤ s.value → a.shl s = Word256.zero ∧ a.shr s = Word256.zero) := by
  refine ⟨by decide, by decide, by decide, ?_, ?_, ?_⟩
  · intro a
    simp [Word256.div, Word256.zero, Word256.ofNat]
  · intro a
    simp [Word256.mod, Word256.zero, Word256.ofNat]
  · intro a s h
    exact ⟨by simp [Word256.shl, h], by simp [Word256.shr, h]⟩

/-- Witness for C5 at a concrete shift of 300. -/
theorem claim_C5_word256_arithmetic_witness :
    256 ≤ (Word256.ofNat 300).value ∧
      Word256.max.shl (Word256.ofNat 300) = Word256.zero ∧
      Word256.max.shr (Word256.ofNat 300) = Word256.zero :=
  ⟨by decide,
    (claim_C5_word256_arithmetic.2.2.2.2.2 Word256.max (Word256.ofNat 300) (by decide)).1,
    (claim_C5_word256_arithmetic.2.2.2.2.2 Word256.max (Word256.ofNat 300) (by decide)).2⟩

/-- C6: for every `Word256`, `fromBytes (toBytes w) = w` and
`fromHex (toHex w) = w`; `toBytes` is exactly 32 big-endian bytes and
`toHex` is a 64-character string, zero-padded on the left of the minimal
hex rendering. -/
theorem claim_C6_word256_roundtrips (w : Word256) :
    Word256.fromBytes w.toBytes = .ok w ∧
    Word256.fromHex w.toHex = .ok w ∧
    w.toBytes.length = 32 ∧
    (∀ b ∈ w.toBytes, b < 256) ∧
    w.toHex.length = 64 ∧
    w.toHex.data = List.replicate (64 - (toDigitsBE 16 w.value w.value).length) '0'
      ++ (toDigitsBE 16 w.value w.value).map hexDigitChar :=
  ⟨word_fromBytes_toBytes w, word_fromHex_toHex w, word_toBytes_length w,
    word_toBytes_lt w, word_toHex_length w, word_toHex_data w⟩

/-- Witness for C6 at `w = 5`, discharging the membership hypothesis of
the byte-bound conjunct. -/
theorem claim_C6_word256_roundtrips_witness :
    5 ∈ (Word256.ofNat 5).toBytes ∧ 5 < 256 :=
  ⟨by decide, (claim_C6_word256_roundtrips (Word256.ofNat 5)).2.2.2.1 5 (by decide)⟩

/-- C8: `chargeGas` is atomic.  If the amount exceeds `gasRemaining` the
state is halted with `OUT_OF_GAS`, the deduction is not applied, and the
handler is aborted (the error return); otherwise `gasRemaining` drops by
exactly the amount and the halted flag (and reason) are untouched. -/
theorem claim_C8_chargeGas_atomic (s : MachineState) (amount : Nat) :
    (s.gasRemaining < amount →
      ∃ s', s.chargeGas amount = .error (.outOfGas, s') ∧
        s'.gasRemaining = s.gasRemaining ∧ s'.halted = true ∧
        s'.haltReason = some .OUT_OF_GAS) ∧
    (amount ≤ s.gasRemaining →
      ∃ s', s.chargeGas amount = .ok s' ∧
        s'.gasRemaining = s.gasRemaining - amount ∧
        s'.halted = s.halted ∧ s'.haltReason = s.haltReason) := by
  constructor
  · intro h
    exact ⟨s.halt .OUT_OF_GAS, by simp [MachineState.chargeGas, h], rfl, rfl, rfl⟩
  · intro h
    refine ⟨{ s with gasRemaining := s.gasRemaining - amount }, ?_, rfl, rfl, rfl⟩
    unfold MachineState.chargeGas
    rw [if_neg (Nat.not_lt.mpr h)]

/-- Witness for C8: a machine with 5 gas, charged 10 (out-of-gas branch)
and charged 3 (success branch). -/
theorem claim_C8_chargeGas_atomic_witness :
    ((MachineState.init 5).gasRemaining < 10 ∧
      ∃ s', (MachineState.init 5).chargeGas 10 = .error (.outOfGas, s') ∧
        s'.gasRemaining = (MachineState.init 5).gasRemaining ∧ s'.halted = true ∧
        s'.haltReason = some .OUT_OF_GAS) ∧
    (3 ≤ (MachineState.init 5).gasRemaining ∧
      ∃ s', (MachineState.init 5).chargeGas 3 = .ok s' ∧
        s'.gasRemaining = (MachineState.init 5).gasRemaining - 3 ∧
        s'.halted = (MachineState.init 5).halted ∧
        s'.haltReason = (MachineState.init 5).haltReason) :=
  ⟨⟨by decide, (claim_C8_chargeGas_atomic (MachineState.init 5) 10).1 (by decide)⟩,
    ⟨by decide, (claim_C8_chargeGas_atomic (MachineState.init 5) 3).2 (by decide)⟩⟩

/-- C7: a JUMP, or a JUMPI whose popped condition is non-zero, whose
popped destination is out of range or not in the pre-analysed JUMPDEST
set, halts with `INVALID_JUMP`, and the `Jump` event (with
`taken = true`) is recorded before the terminal `Halt` event.  The scan
excludes a `0x5b` lying inside PUSH immediate data: on
`PUSH1 0x5b; JUMPDEST` only position 2 is a valid target. -/
theorem claim_C7_invalid_jump_halts :
    (∀ (σ : Type) (H : Host σ) (it : Interp σ) (dest : Word256) (rest : List Word256),
      it.state.halted = false →
      it.state.pc < it.bytecode.length →
      it.bytecode.getD it.state.pc 0 = 0x56 →
      8 ≤ it.state.gasRemaining →
      it.stack = dest :: rest →
      (it.bytecode.length ≤ dest.value ∨ it.validJumpDests.contains dest.value = false) →
      ∃ it', step H it = .ok (false, it') ∧
        it'.state.halted = true ∧ it'.state.haltReason = some .INVALID_JUMP ∧
        it'.trace.events = it.trace.events ++
          [.opcodeStart it.trace.nextIndex it.state.pc it.state.gasRemaining 0x56 "JUMP",
           .gasCharge (it.trace.nextIndex + 1) it.state.pc (it.state.gasRemaining - 8)
             (decString 8) "JUMP",
           .stackPop (it.trace.nextIndex + 2) it.state.pc (it.state.gasRemaining - 8)
             dest.toHexWith0x,
           .jump (it.trace.nextIndex + 3) it.state.pc (it.state.gasRemaining - 8)
             it.state.pc dest.value false true,
           .halt (it.trace.nextIndex + 4) it.state.pc (it.state.gasRemaining - 8)
             .INVALID_JUMP]) ∧
    (∀ (σ : Type) (H : Host σ) (it : Interp σ) (cond dest : Word256) (rest : List Word256),
      it.state.halted = false →
      it.state.pc < it.bytecode.length →
      it.bytecode.getD it.state.pc 0 = 0x57 →
      10 ≤ it.state.gasRemaining →
      it.stack = cond :: dest :: rest →
      cond.value ≠ 0 →
      (it.bytecode.length ≤ dest.value ∨ it.validJumpDests.contains dest.value = false) →
      ∃ it', step H it = .ok (false, it') ∧
        it'.state.halted = true ∧ it'.state.haltReason = some .INVALID_JUMP ∧
        it'.trace.events = it.trace.events ++
          [.opcodeStart it.trace.nextIndex it.state.pc it.state.gasRemaining 0x57 "JUMPI",
           .gasCharge (it.trace.nextIndex + 1) it.state.pc (it.state.gasRemaining - 10)
             (decString 10) "JUMPI",
           .stackPop (it.trace.nextIndex + 2) it.state.pc (it.state.gasRemaining - 10)
             cond.toHexWith0x,
           .stackPop (it.trace.nextIndex + 3) it.state.pc (it.state.gasRemaining - 10)
             dest.toHexWith0x,
           .jump (it.trace.nextIndex + 4) it.state.pc (it.state.gasRemaining - 10)
             it.state.pc dest.value true true,
           .halt (it.trace.nextIndex + 5) it.state.pc (it.state.gasRemaining - 10)
             .INVALID_JUMP]) ∧
    buildJumpDestinations [0x60, 0x5b, 0x5b] = [2] := by
  refine ⟨?_, ?_, by decide⟩
  · intro σ H it dest rest hh hpc hop hgas hstk hbad
    unfold step
    rw [if_neg (by simp [hh]), if_neg (by omega)]
    simp only [hop]
    rw [show ∀ (x : Interp σ), executeOpcode H 0x56 x = executeJUMP x from fun _ => rfl]
    simp only [Interp.record, TraceCollector.getNextIndex, TraceCollector.record,
      TraceEventBuilder.opcodeStart]
    rw [executeJUMP_invalid _ dest rest (by simpa using hgas) (by simpa using hstk)
      (by simpa using hbad)]
    rw [catchStep_ok, bindE_ok]
    rw [if_pos (by simp [MachineState.halt])]
    refine ⟨_, rfl, ?_, ?_, ?_⟩ <;>
      simp [Interp.record, Interp.haltWith, MachineState.halt, TraceCollector.getNextIndex,
        TraceCollector.record, TraceEventBuilder.halt,
        show getOpcodeName 0x56 = "JUMP" from rfl, Nat.add_assoc]
  · intro σ H it cond dest rest hh hpc hop hgas hstk hcond hbad
    unfold step
    rw [if_neg (by simp [hh]), if_neg (by omega)]
    simp only [hop]
    rw [show ∀ (x : Interp σ), executeOpcode H 0x57 x = executeJUMPI x from fun _ => rfl]
    simp only [Interp.record, TraceCollector.getNextIndex, TraceCollector.record,
      TraceEventBuilder.opcodeStart]
    rw [executeJUMPI_invalid _ cond dest rest (by simpa using hgas) (by simpa using hstk)
      hcond (by simpa using hbad)]
    rw [catchStep_ok, bindE_ok]
    rw [if_pos (by simp [MachineState.halt])]
    refine ⟨_, rfl, ?_, ?_, ?_⟩ <;>
      simp [Interp.record, Interp.haltWith, MachineState.halt, TraceCollector.getNextIndex,
        TraceCollector.record, TraceEventBuilder.halt,
        show getOpcodeName 0x57 = "JUMPI" from rfl, Nat.add_assoc]

/-- Witness for C7: `PUSH1 04; JUMP; STOP; PUSH1 42; STOP` (scenario 6 of
the specification) — position 4 is not a JUMPDEST. -/
theorem claim_C7_invalid_jump_halts_witness :
    (∃ it', step memoryHostImpl
        { mkInterp [0x60, 0x04, 0x56, 0x00, 0x60, 0x42, 0x00] [] 999994 MemoryHost.empty with
          state := { MachineState.init 999994 with pc := 2 },
          stack := [Word256.ofNat 4] }
      = .ok (false, it') ∧ it'.state.haltReason = some .INVALID_JUMP) ∧
    (∃ it', step memoryHostImpl
        { mkInterp [0x57] [] 100 MemoryHost.empty with
          stack := [Word256.ofNat 1, Word256.ofNat 77] }
      = .ok (false, it') ∧ it'.state.haltReason = some .INVALID_JUMP) := by
  constructor
  · obtain ⟨it', h1, _, h3, _⟩ := claim_C7_invalid_jump_halts.1 MemoryHost memoryHostImpl
      { mkInterp [0x60, 0x04, 0x56, 0x00, 0x60, 0x42, 0x00] [] 999994 MemoryHost.empty with
        state := { MachineState.init 999994 with pc := 2 },
        stack := [Word256.ofNat 4] }
      (Word256.ofNat 4) [] rfl (by decide) (by decide) (by decide) rfl (by decide)
    exact ⟨it', h1, h3⟩
  · obtain ⟨it', h1, _, h3, _⟩ := claim_C7_invalid_jump_halts.2.1 MemoryHost memoryHostImpl
      { mkInterp [0x57] [] 100 MemoryHost.empty with
        stack := [Word256.ofNat 1, Word256.ofNat 77] }
      (Word256.ofNat 1) (Word256.ofNat 77) [] rfl (by decide) (by decide) (by decide) rfl
      (by decide) (by decide)
    exact ⟨it', h1, h3⟩

/-- C9: `step()` on a non-halted machine whose PC is past the bytecode
records a terminal `Halt` with reason `STOP` (not `INVALID_OPCODE`),
halts, and returns `false`; on an already-halted machine it returns
`false` leaving state and trace untouched. -/
theorem claim_C9_step_boundaries (σ : Type) (H : Host σ) (it : Interp σ) :
    (it.state.halted = false → it.bytecode.length ≤ it.state.pc →
      ∃ it', step H it = .ok (false, it') ∧
        it'.state.halted = true ∧ it'.state.haltReason = some .STOP ∧
        it'.trace.events = it.trace.events ++
          [.halt it.trace.nextIndex it.state.pc it.state.gasRemaining .STOP] ∧
        it'.stack = it.stack ∧ it'.state.pc = it.state.pc) ∧
    (it.state.halted = true → step H it = .ok (false, it)) := by
  constructor
  · intro hh hpc
    unfold step
    rw [if_neg (by simp [hh]), if_pos hpc]
    refine ⟨_, rfl, ?_, ?_, ?_, rfl, rfl⟩ <;>
      simp [Interp.record, Interp.haltWith, MachineState.halt, TraceCollector.record,
        TraceCollector.getNextIndex, TraceEventBuilder.halt]
  · intro hh
    unfold step
    rw [if_pos hh]

/-- Witness for C9: the empty bytecode at PC 0 (implicit STOP), and an
already-halted machine. -/
theorem claim_C9_step_boundaries_witness :
    (mkInterp ([] : List Nat) [] 5 MemoryHost.empty).state.halted = false ∧
    (∃ it', step memoryHostImpl (mkInterp ([] : List Nat) [] 5 MemoryHost.empty)
        = .ok (false, it') ∧ it'.state.haltReason = some .STOP) ∧
    step memoryHostImpl
        { mkInterp ([0x00] : List Nat) [] 5 MemoryHost.empty with
          state := (MachineState.init 5).halt .STOP }
      = .ok (false, { mkInterp ([0x00] : List Nat) [] 5 MemoryHost.empty with
          state := (MachineState.init 5).halt .STOP }) := by
  refine ⟨rfl, ?_, ?_⟩
  · obtain ⟨it', h1, _, h3, _⟩ :=
      (claim_C9_step_boundaries MemoryHost memoryHostImpl
        (mkInterp ([] : List Nat) [] 5 MemoryHost.empty)).1 rfl (by decide)
    exact ⟨it', h1, h3⟩
  · exact (claim_C9_step_boundaries MemoryHost memoryHostImpl _).2 rfl

/-- C1 (code bug): run() does not always return normally.  On
`PUSH1 00; PUSH1 00; LOG0` with ample gas, `executeLOG0` calls
`TraceEventBuilder.log`, which does not exist in the trace event module;
the call throws a `TypeError` that `step()` rethrows, so `run()` raises
to its caller — after the host has already received the log entry. -/
theorem claim_C1_run_raises_on_log :
    runRaises logRunOutcome = true ∧ isUncaughtTypeErrorAfterLog logRunOutcome = true := by
  constructor <;> decide

/-- C4 counterexample: on a collector holding one `Halt` event recorded
with `gasRemaining = 500`, the round-tripped events differ from the
original runtime events — `gasRemaining` comes back as the string "500"
instead of the bigint 500. -/
theorem claim_C4_roundtrip_counterexample :
    (TraceCollector.fromJSONtoJSON
        (TraceCollector.empty.record (TraceEventBuilder.halt 0 5 500 .STOP))).events
      ≠ (TraceCollector.empty.record (TraceEventBuilder.halt 0 5 500 .STOP)).runtimeEvents := by
  decide

/-- C4 amended: `fromJSON(toJSON(t))` preserves the event count, restores
the next-index counter to the length of the event array, and returns the
original runtime events with every bigint-valued field rendered as its
decimal string (field names and order preserved); it is not equal to `t`
in event content, because `gasRemaining` changes from bigint to string. -/
theorem claim_C4_roundtrip_amended (c : TraceCollector) :
    (c.fromJSONtoJSON).events = c.runtimeEvents.map objJsonRound ∧
    (c.fromJSONtoJSON).events.length = c.getEventCount ∧
    (c.fromJSONtoJSON).nextIndex = c.events.length ∧
    (c.fromJSONtoJSON).events.map (fun o => o.map Prod.fst)
      = c.runtimeEvents.map (fun o => o.map Prod.fst) := by
  refine ⟨rfl, ?_, by simp [TraceCollector.fromJSONtoJSON], ?_⟩
  · simp [TraceCollector.fromJSONtoJSON, TraceCollector.getEventCount,
      TraceCollector.runtimeEvents]
  · simp only [TraceCollector.fromJSONtoJSON, TraceCollector.runtimeEvents, List.map_map]
    apply List.map_congr_left
    intro e _
    simp [objJsonRound, Function.comp]

set_option maxRecDepth 8192 in
/-- C2 counterexample: `PUSH1 00; SLOAD; STOP` with 1000000 gas runs to a
normal halt, but the trace's `GasCharge` total is 3 (only the PUSH1 charge
was recorded) while `initialGas - gasRemaining` is 203: `executeSLOAD`
charges its 200 gas with `state.chargeGas` alone, recording no `GasCharge`
event. -/
theorem claim_C2_gas_accounting_counterexample :
    ∃ itF : Interp MemoryHost, sloadRunOutcome = .ok (some itF) ∧
      gasChargeTotal itF.trace.events = 3 ∧
      1000000 - itF.state.gasRemaining = 203 ∧
      gasChargeTotal itF.trace.events ≠ 1000000 - itF.state.gasRemaining := by
  have hok : runHalts sloadRunOutcome = true := by decide
  have h1 : runGasChargeTotal sloadRunOutcome = 3 := by decide
  have h2 : runGasSpent 1000000 sloadRunOutcome = 203 := by decide
  cases hr : sloadRunOutcome with
  | error e => rw [hr] at hok; simp [runHalts] at hok
  | ok o =>
    cases o with
    | none => rw [hr] at hok; simp [runHalts] at hok
    | some itF =>
      rw [hr] at h1 h2
      simp only [runGasChargeTotal, runGasSpent, runResState] at h1 h2
      exact ⟨itF, rfl, h1, h2, by omega⟩

/-- C2 (amended): for every run whose bytecode contains none of SLOAD,
SSTORE, LOG0-LOG4 and which runs to a halt, the sum of the `GasCharge`
amounts recorded in the trace equals `initialGas - gasRemaining` at the
halt.  (The unmetered opcodes break the equality, as the counterexample
shows.) -/
theorem claim_C2_gas_accounting (σ : Type) (H : Host σ)
    (bytecode calldata : List Nat) (initialGas : Nat) (host : σ)
    (fuel : Nat) (itF : Interp σ)
    (hops : ∀ b ∈ bytecode, b ∉ unmeteredTraceOpcodes)
    (hrun : runFuel H fuel (mkInterp bytecode calldata initialGas host)
      = .ok (some itF)) :
    gasChargeTotal itF.trace.events = initialGas - itF.state.gasRemaining := by
  have hF := frameG_runFuel H fuel (mkInterp bytecode calldata initialGas host) itF
    (fun b hb => hops b hb) (by rw [hrun]; rfl)
  have hg : gasChargeTotal itF.trace.events + itF.state.gasRemaining
      = gasChargeTotal (mkInterp bytecode calldata initialGas host).trace.events
        + (mkInterp bytecode calldata initialGas host).state.gasRemaining :=
    congrArg (fun p => p.2.1) hF
  have h0 : gasChargeTotal (mkInterp bytecode calldata initialGas host).trace.events
      = 0 := rfl
  have h1 : (mkInterp bytecode calldata initialGas host).state.gasRemaining
      = initialGas := rfl
  rw [h0, h1] at hg
  omega

/-- Witness for the amended C2: `PUSH1 01; PUSH1 02; ADD; STOP` with
100 gas. -/
theorem claim_C2_gas_accounting_witness :
    ∃ itF : Interp MemoryHost,
      runFuel memoryHostImpl 10
        (mkInterp [0x60, 0x01, 0x60, 0x02, 0x01, 0x00] [] 100 MemoryHost.empty)
      = .ok (some itF) ∧
      gasChargeTotal itF.trace.events = 100 - itF.state.gasRemaining := by
  have hok : runHalts (runFuel memoryHostImpl 10
      (mkInterp [0x60, 0x01, 0x60, 0x02, 0x01, 0x00] [] 100 MemoryHost.empty))
      = true := by decide
  cases hr : runFuel memoryHostImpl 10
      (mkInterp [0x60, 0x01, 0x60, 0x02, 0x01, 0x00] [] 100 MemoryHost.empty) with
  | error e => rw [hr] at hok; simp [runHalts] at hok
  | ok o =>
    cases o with
    | none => rw [hr] at hok; simp [runHalts] at hok
    | some itF =>
      exact ⟨itF, rfl, claim_C2_gas_accounting MemoryHost memoryHostImpl
        [0x60, 0x01, 0x60, 0x02, 0x01, 0x00] [] 100 MemoryHost.empty 10 itF
        (by decide) hr⟩

set_option maxRecDepth 8192 in
/-- C3 counterexample: in the `PUSH1 01; PUSH1 00; SSTORE; STOP` run the
SSTORE handler pops two inputs (the trace holds two `StackPush` events and
the operand stack ends empty) and charges 20000 gas, yet the final trace
contains no `StackPop` event at all and its `GasCharge` events total only
6 (the two PUSH1 charges) while 20006 gas was spent: SSTORE records
neither its baseline `GasCharge` nor any `StackPop`, refuting "one
StackPop event per popped input" and "the baseline GasCharge event
first". -/
theorem claim_C3_event_order_counterexample :
    ∃ itF : Interp MemoryHost, sstoreRunOutcome = .ok (some itF) ∧
      100000 - itF.state.gasRemaining = 20006 ∧
      gasChargeTotal itF.trace.events = 6 ∧
      (itF.trace.events.filter TraceEvent.isStackPush).length = 2 ∧
      itF.stack = [] ∧
      (itF.trace.events.filter TraceEvent.isStackPop).length = 0 := by
  have hok : runHalts sstoreRunOutcome = true := by decide
  have h1 : runGasSpent 100000 sstoreRunOutcome = 20006 := by decide
  have h2 : runGasChargeTotal sstoreRunOutcome = 6 := by decide
  have h3 : runEventCount TraceEvent.isStackPush sstoreRunOutcome = 2 := by decide
  have h4 : runEventCount TraceEvent.isStackPop sstoreRunOutcome = 0 := by decide
  have h5 : (match runResState sstoreRunOutcome with
      | some itF => itF.stack
      | none => [Word256.zero]) = [] := by decide
  cases hr : sstoreRunOutcome with
  | error e => rw [hr] at hok; simp [runHalts] at hok
  | ok o =>
    cases o with
    | none => rw [hr] at hok; simp [runHalts] at hok
    | some itF =>
      rw [hr] at h1 h2 h3 h4 h5
      simp only [runGasSpent, runGasChargeTotal, runEventCount, runResState]
        at h1 h2 h3 h4 h5
      exact ⟨itF, rfl, h1, h2, h3, h5, h4⟩

/-- C3 (amended): for every opcode other than SLOAD, SSTORE, LOG0-LOG4,
the handler appends its trace events as one block in stage order — any
baseline `GasCharge` (reason a bare mnemonic) first, then the `StackPop`
events, then dynamic `GasCharge`s and side-effect events, then the
`StackPush` events (`evRank` nondecreasing along the block) — and carries
one `StackPop`/`StackPush` event per actual pop/push, stated as the
operand-stack length accounting identity.  SLOAD, SSTORE and LOG0-LOG4
violate the original claim (see the counterexample). -/
theorem claim_C3_event_order (σ : Type) (H : Host σ) (opcode : Nat) (it : Interp σ)
    (hop : opcode ∉ unmeteredTraceOpcodes) :
    ∃ L, (resState (executeOpcode H opcode it)).trace.events
        = it.trace.events ++ L ∧
      (∀ i j : Fin L.length, i < j →
        TraceEvent.evRank (L.get i) ≤ TraceEvent.evRank (L.get j)) ∧
      (resState (executeOpcode H opcode it)).stack.length
          + (L.filter TraceEvent.isStackPop).length
        = it.stack.length + (L.filter TraceEvent.isStackPush).length := by
  obtain ⟨L, h1, h2, h3, h4⟩ := rankedAppend_executeOpcode H opcode it hop
  refine ⟨L, h1, ?_, h4⟩
  haveI : IsTrans TraceEvent
      (fun a b => TraceEvent.evRank a ≤ TraceEvent.evRank b) :=
    ⟨fun a b c hab hbc => le_trans hab hbc⟩
  exact fun i j hij => List.pairwise_iff_get.mp (List.chain'_iff_pairwise.mp h2) i j hij

/-- Witness for the amended C3: ADD (0x01) on a two-element stack. -/
theorem claim_C3_event_order_witness :
    ((0x01 : Nat) ∉ unmeteredTraceOpcodes) ∧
    (∃ L, (resState (executeOpcode memoryHostImpl 0x01
          { mkInterp [0x01] [] 100 MemoryHost.empty with
            stack := [Word256.ofNat 2, Word256.ofNat 3] })).trace.events
        = ({ mkInterp [0x01] [] 100 MemoryHost.empty with
            stack := [Word256.ofNat 2, Word256.ofNat 3] } : Interp MemoryHost).trace.events ++ L ∧
      (∀ i j : Fin L.length, i < j →
        TraceEvent.evRank (L.get i) ≤ TraceEvent.evRank (L.get j)) ∧
      (resState (executeOpcode memoryHostImpl 0x01
          { mkInterp [0x01] [] 100 MemoryHost.empty with
            stack := [Word256.ofNat 2, Word256.ofNat 3] })).stack.length
          + (L.filter TraceEvent.isStackPop).length
        = ({ mkInterp [0x01] [] 100 MemoryHost.empty with
            stack := [Word256.ofNat 2, Word256.ofNat 3] } : Interp MemoryHost).stack.length
          + (L.filter TraceEvent.isStackPush).length) :=
  ⟨by decide, claim_C3_event_order MemoryHost memoryHostImpl 0x01
    { mkInterp [0x01] [] 100 MemoryHost.empty with
      stack := [Word256.ofNat 2, Word256.ofNat 3] } (by decide)⟩

/-- C10: the `stack` field of the `MachineState` returned by `getState()`
is never written during execution — every instance the interpreter loop
can leave behind (normal halt or uncaught throw) still has
`state.stack = []`, the empty array created by the constructor, because
the operand stack lives in the separate `Stack` object observable through
`getStack()`. -/
theorem claim_C10_machine_stack_unwritten (σ : Type) (H : Host σ)
    (bytecode calldata : List Nat) (initialGas : Nat) (host : σ)
    (fuel : Nat) (itF : Interp σ)
    (h : runResState (runFuel H fuel (mkInterp bytecode calldata initialGas host))
      = some itF) :
    itF.state.stack = [] := by
  have hF := frameS_runFuel H fuel (mkInterp bytecode calldata initialGas host) itF h
  have hs : itF.state.stack
      = (mkInterp bytecode calldata initialGas host).state.stack :=
    congrArg (fun p => p.1) hF
  exact hs

/-- Witness for C10: a run of `PUSH1 05; STOP`. -/
theorem claim_C10_machine_stack_unwritten_witness :
    ∃ itF : Interp MemoryHost,
      runResState (runFuel memoryHostImpl 5
        (mkInterp [0x60, 0x05, 0x00] [] 100 MemoryHost.empty)) = some itF ∧
      itF.state.stack = [] := by
  cases hr : runResState (runFuel memoryHostImpl 5
      (mkInterp [0x60, 0x05, 0x00] [] 100 MemoryHost.empty)) with
  | none =>
    have hok : (runResState (runFuel memoryHostImpl 5
        (mkInterp [0x60, 0x05, 0x00] [] 100 MemoryHost.empty))).isSome = true := by
      decide
    rw [hr] at hok
    simp at hok
  | some itF =>
    exact ⟨itF, rfl, claim_C10_machine_stack_unwritten MemoryHost memoryHostImpl
      [0x60, 0x05, 0x00] [] 100 MemoryHost.empty 5 itF hr⟩

end Evmix
